import Mathlib

/-!
Verification of the S3 directory-listing lambda.

Shallow embedding of `hacks/s3_art-srv-enterprise/lambda_art-srv-enterprise-s3-get-index-html-gen.py`:
the byte-size formatter `pretty_size`, the paginated enumerator `s3_list_dir`,
the HTML renderer `process_dir`, and the CDN entry point `lambda_handler`,
together with the Python string primitives they rely on
(`str.lstrip`/`rstrip`/`rsplit`/`endswith`, `in`, `int()`, `urllib.parse.unquote`,
`parse_qs`, `quote`, and `pathlib.PurePosixPath` string normalization).

Python `str` values are modelled as Lean `String` (a wrapper around `List Char`);
Python's unbounded `int` as `Int`/`Nat`.  The S3 client is modelled as a function
from the queried prefix to the list of successive `list_objects_v2` results, each
of which either returns a page or raises.  A raised, uncaught Python exception is
modelled as `Except.error`.
-/

set_option maxRecDepth 100000

namespace ArtSrv

/-- Exceptions that the modelled code can raise: `ValueError` from `int()` on a
non-numeric literal, and an arbitrary failure raised by an S3 `list_objects_v2`
call (network, permission, not-found — the code treats them all alike). -/
inductive PyExn where
  | valueError (lit : String)
  | storeError (code : Nat)
  deriving DecidableEq, Repr

deriving instance DecidableEq for Except

/-! ## Python string primitives -/

/-- Python `sep.split`-style split of a character list at every occurrence of
`sep` (all separators used in the source are single characters).
`splitCh '/' "a/b"` gives `["a", "b"]`, and the empty list gives `[[]]`,
matching Python's `''.split(sep) == ['']`. -/
def splitCh (sep : Char) : List Char → List (List Char)
  | [] => [[]]
  | c :: rest =>
    let r := splitCh sep rest
    if c = sep then [] :: r
    else
      match r with
      | h :: t => (c :: h) :: t
      | [] => [[c]]

/-- Python `str.lstrip('/')`: drop every leading `/`. -/
def pyLstripSlash (s : String) : String :=
  ⟨s.data.dropWhile (fun c => c = '/')⟩

/-- Python `str.rstrip('/')`: drop every trailing `/`. -/
def pyRstripSlash (s : String) : String :=
  ⟨(s.data.reverse.dropWhile (fun c => c = '/')).reverse⟩

/-- Contiguous-sublist check on character lists. -/
def infixCheck : List Char → List Char → Bool
  | needle, [] => needle.isEmpty
  | needle, c :: t => needle.isPrefixOf (c :: t) || infixCheck needle t

/-- Python `needle in hay` on strings: substring containment. -/
def strContains (hay needle : String) : Bool :=
  infixCheck needle.data hay.data

/-- Python `str.endswith(suffix)`. -/
def strEndsWith (s sfx : String) : Bool :=
  sfx.data.isSuffixOf s.data

/-- Python `str.lower()` (ASCII range, which covers every string the code
compares after lowering). -/
def pyLower (s : String) : String :=
  ⟨s.data.map Char.toLower⟩

/-- Python `s.rsplit('/', 1)[0]`: everything before the last `/`, or the whole
string when there is no `/`. -/
def rsplitHead (s : String) : String :=
  match s.data.reverse.dropWhile (fun c => c ≠ '/') with
  | [] => s
  | _ :: tl => ⟨tl.reverse⟩

/-- `String.intercalate` for our own split, used by the `PurePosixPath` model. -/
def joinSep (sep : String) : List String → String
  | [] => ""
  | h :: t => t.foldl (fun a b => a ++ sep ++ b) h

/-! ## `pathlib.PurePosixPath` string model

`lambda_handler` passes `Path(dir_key)` to `process_dir`, which uses the path's
`.name` and its `str()` form.  `PurePosixPath` collapses repeated separators,
drops `.` segments and trailing separators, keeps a root of `/` (or the POSIX
special root `//` for exactly two leading slashes), and renders the empty path
as `.`. -/

/-- The non-root components of a POSIX pure path: split on `/`, dropping empty
and `.` segments. -/
def pathSegs (s : String) : List String :=
  ((splitCh '/' s.data).map (fun l => (⟨l⟩ : String))).filter
    (fun t => t ≠ "" && t ≠ ".")

/-- The root of a POSIX pure path: `//` for exactly two leading slashes,
`/` for one or three-and-more, empty otherwise. -/
def pathRoot (s : String) : String :=
  if s.data.take 3 = ['/', '/', '/'] then "/"
  else if s.data.take 2 = ['/', '/'] then "//"
  else if s.data.take 1 = ['/'] then "/"
  else ""

/-- `str(PurePosixPath(s))`. -/
def pathStr (s : String) : String :=
  let segs := pathSegs s
  if segs.isEmpty then (if pathRoot s = "" then "." else pathRoot s)
  else pathRoot s ++ joinSep "/" segs

/-- `PurePosixPath(s).name`: the last component, `''` when there is none. -/
def pathName (s : String) : String :=
  (pathSegs s).getLast?.getD ""

/-! ## Percent-decoding: `urllib.parse.unquote` -/

/-- Hexadecimal digit value, `none` for a non-hex character. -/
def hexVal (c : Char) : Option Nat :=
  if '0' ≤ c ∧ c ≤ '9' then some (c.toNat - 48)
  else if 'a' ≤ c ∧ c ≤ 'f' then some (c.toNat - 87)
  else if 'A' ≤ c ∧ c ≤ 'F' then some (c.toNat - 55)
  else none

/-- Tokenize a percent-encoded character list: each valid `%XX` becomes a byte
(`Sum.inr`), every other character stays literal (`Sum.inl`); a `%` not
followed by two hex digits stays literal, as in Python.  Fuel-indexed (each
step consumes at least one character, so fuel at least the list length never
runs out). -/
def pctScanF : Nat → List Char → List (Sum Char Nat)
  | 0, _ => []
  | _ + 1, [] => []
  | fuel + 1, '%' :: h1 :: h2 :: rest2 =>
    (match hexVal h1, hexVal h2 with
     | some a, some b => Sum.inr (16 * a + b) :: pctScanF fuel rest2
     | _, _ => Sum.inl '%' :: pctScanF fuel (h1 :: h2 :: rest2))
  | fuel + 1, c :: rest => Sum.inl c :: pctScanF fuel rest

/-- The U+FFFD replacement character used by `errors='replace'` decoding. -/
def replChar : Char := Char.ofNat 0xFFFD

/-- A scalar-value constructor: code points outside the valid `Char` range
become the replacement character. -/
def mkChar (n : Nat) : Char :=
  if n < 0xD800 ∨ (0xE000 ≤ n ∧ n ≤ 0x10FFFF) then Char.ofNat n else replChar

/-- Is `b` a UTF-8 continuation byte? -/
def isCont (b : Nat) : Bool := 0x80 ≤ b ∧ b < 0xC0

/-- UTF-8 decoding of a byte run with replacement on error (fuel-indexed; fuel
is at least the list length at every call site, so it never runs out). -/
def utf8DecodeF : Nat → List Nat → List Char
  | 0, _ => []
  | _ + 1, [] => []
  | fuel + 1, b :: rest =>
    if b < 0x80 then Char.ofNat b :: utf8DecodeF fuel rest
    else if 0xC2 ≤ b ∧ b ≤ 0xDF then
      match rest with
      | b1 :: r2 =>
        if isCont b1 then mkChar ((b - 0xC0) * 64 + (b1 - 0x80)) :: utf8DecodeF fuel r2
        else replChar :: utf8DecodeF fuel rest
      | [] => [replChar]
    else if 0xE0 ≤ b ∧ b ≤ 0xEF then
      match rest with
      | b1 :: b2 :: r3 =>
        if isCont b1 ∧ isCont b2 then
          let cp := (b - 0xE0) * 4096 + (b1 - 0x80) * 64 + (b2 - 0x80)
          if cp < 0x800 then replChar :: utf8DecodeF fuel r3
          else mkChar cp :: utf8DecodeF fuel r3
        else replChar :: utf8DecodeF fuel rest
      | _ => [replChar]
    else if 0xF0 ≤ b ∧ b ≤ 0xF4 then
      match rest with
      | b1 :: b2 :: b3 :: r4 =>
        if isCont b1 ∧ isCont b2 ∧ isCont b3 then
          let cp := (b - 0xF0) * 262144 + (b1 - 0x80) * 4096 + (b2 - 0x80) * 64 + (b3 - 0x80)
          if cp < 0x10000 then replChar :: utf8DecodeF fuel r4
          else mkChar cp :: utf8DecodeF fuel r4
        else replChar :: utf8DecodeF fuel rest
      | _ => [replChar]
    else replChar :: utf8DecodeF fuel rest

/-- Is a scan token a byte token? -/
def isByteTok : Sum Char Nat → Bool
  | .inr _ => true
  | .inl _ => false

/-- The byte of a byte token (`0` is never used: callers filter first). -/
def tokByte : Sum Char Nat → Nat
  | .inr b => b
  | .inl _ => 0

/-- Reassemble scan tokens: maximal runs of `%XX` bytes are UTF-8 decoded as a
unit (as CPython's `unquote` does), literal characters pass through. -/
def decodeScanF : Nat → List (Sum Char Nat) → List Char
  | 0, _ => []
  | _ + 1, [] => []
  | fuel + 1, .inl c :: rest => c :: decodeScanF fuel rest
  | fuel + 1, .inr b :: rest =>
    let run := b :: (rest.takeWhile isByteTok).map tokByte
    let remaining := rest.dropWhile isByteTok
    utf8DecodeF (run.length + 1) run ++ decodeScanF fuel remaining

/-- Python `urllib.parse.unquote`. -/
def unquote (s : String) : String :=
  ⟨decodeScanF (s.data.length + 1) (pctScanF (s.data.length + 1) s.data)⟩

/-- Python `urllib.parse.unquote_plus`: `+` becomes a space, then percent-decode. -/
def unquote_plus (s : String) : String :=
  unquote ⟨s.data.map (fun c => if c = '+' then ' ' else c)⟩

/-! ## Percent-encoding: `urllib.parse.quote` -/

/-- Characters `quote` leaves unencoded: ASCII letters, digits, `_.-~`, and the
default `safe='/'`. -/
def safeChar (c : Char) : Bool :=
  (('a' ≤ c ∧ c ≤ 'z') ∨ ('A' ≤ c ∧ c ≤ 'Z') ∨ ('0' ≤ c ∧ c ≤ '9')) ||
    (c = '_' ∨ c = '.' ∨ c = '-' ∨ c = '~' ∨ c = '/')

/-- Upper-case hexadecimal digit for `n < 16`. -/
def hexDigitU (n : Nat) : Char :=
  (['0', '1', '2', '3', '4', '5', '6', '7', '8', '9',
    'A', 'B', 'C', 'D', 'E', 'F'].getD n '0')

/-- `%XX` encoding of one byte. -/
def pctByte (b : Nat) : List Char :=
  ['%', hexDigitU (b / 16), hexDigitU (b % 16)]

/-- The UTF-8 bytes of one character. -/
def utf8BytesC (c : Char) : List Nat :=
  let n := c.toNat
  if n < 0x80 then [n]
  else if n < 0x800 then [0xC0 + n / 64, 0x80 + n % 64]
  else if n < 0x10000 then [0xE0 + n / 4096, 0x80 + (n / 64) % 64, 0x80 + n % 64]
  else [0xF0 + n / 262144, 0x80 + (n / 4096) % 64, 0x80 + (n / 64) % 64, 0x80 + n % 64]

/-- Encoding of one character under `quote`. -/
def quoteChar (c : Char) : List Char :=
  if safeChar c then [c] else ((utf8BytesC c).map pctByte).flatten

/-- Python `urllib.parse.quote(s)` with the default `safe='/'`. -/
def quote (s : String) : String :=
  ⟨(s.data.map quoteChar).flatten⟩

/-! ## `int()` and `parse_qs` -/

/-- The whitespace the ASCII stage of `int()` strips (CPython `Py_ISSPACE`):
exactly space, tab, LF, VT, FF, CR.  (`\x1c`-`\x1f` count as Unicode
whitespace for `str.isspace` but are below 128, pass the transform unchanged,
and are then rejected here — `int('\x1c5')` raises.) -/
def isPyWS (c : Char) : Bool :=
  c = ' ' ∨ c = '\t' ∨ c = '\n' ∨ c = '\r' ∨ c = '\x0b' ∨ c = '\x0c'

/-- First code points of the Unicode `Nd` (decimal digit) blocks, each a run
of ten characters with digit values 0..9, as in the `unicodedata` of the
targeted CPython (3.11). -/
def ndStarts : List Nat :=
  [48, 1632, 1776, 1984, 2406, 2534, 2662, 2790, 2918, 3046, 3174, 3302, 3430,
   3558, 3664, 3792, 3872, 4160, 4240, 6112, 6160, 6470, 6608, 6784, 6800,
   6992, 7088, 7232, 7248, 42528, 43216, 43264, 43472, 43504, 43600, 44016,
   65296, 66720, 68912, 69734, 69872, 69942, 70096, 70384, 70736, 70864,
   71248, 71360, 71472, 71904, 72016, 72784, 73040, 73120, 92768, 92864,
   93008, 120782, 120792, 120802, 120812, 120822, 123200, 123632, 125264,
   130032]

/-- The decimal value of a Unicode decimal-digit character, `none` for any
other character. -/
def pyDigitVal (c : Char) : Option Nat :=
  (ndStarts.find? (fun s => s ≤ c.toNat && c.toNat < s + 10)).map
    (fun s => c.toNat - s)

/-- Non-ASCII code points CPython's decimal transform maps to a space
(`Py_UNICODE_ISSPACE` above 127). -/
def pyUniSpaceCodes : List Nat :=
  [0x85, 0xA0, 0x1680, 0x2000, 0x2001, 0x2002, 0x2003, 0x2004, 0x2005,
   0x2006, 0x2007, 0x2008, 0x2009, 0x200A, 0x2028, 0x2029, 0x202F, 0x205F,
   0x3000]

/-- Is `c` a non-ASCII Unicode whitespace character? -/
def pyUniSpace (c : Char) : Bool :=
  pyUniSpaceCodes.contains c.toNat

/-- CPython's `_PyUnicode_TransformDecimalAndSpaceToASCII`, which `int()`
applies before parsing: characters below 128 pass through, Unicode decimal
digits become the corresponding ASCII digit, Unicode whitespace becomes a
space, and any other non-ASCII character makes the conversion fail. -/
def pyTransformDecimal : List Char → Option (List Char)
  | [] => some []
  | c :: rest =>
    match
      (if c.toNat < 128 then some c
       else
         match pyDigitVal c with
         | some d => some (Char.ofNat (48 + d))
         | none => if pyUniSpace c then some ' ' else none) with
    | none => none
    | some c2 => (pyTransformDecimal rest).map (fun l => c2 :: l)

/-- Digit-group parser for `int()`: decimal digits with single underscores
allowed strictly between digits, value accumulated into `acc`. -/
def digCore : List Char → Nat → Option Nat
  | [], acc => some acc
  | '_' :: c :: rest, acc =>
    if c.isDigit then digCore rest (acc * 10 + (c.toNat - 48)) else none
  | ['_'], _ => none
  | c :: rest, acc =>
    if c.isDigit then digCore rest (acc * 10 + (c.toNat - 48)) else none

/-- Parse a nonempty digit group (underscore-separated), as accepted by
Python `int()` after sign handling. -/
def digitsVal : List Char → Option Nat
  | [] => none
  | c :: rest => if c.isDigit then digCore rest (c.toNat - 48) else none

/-- Python `int(s)` on a string: apply the decimal/space transform, strip
ASCII whitespace, take an optional sign, then a digit group with underscores;
`none` models the `ValueError` raise. -/
def pyInt (s : String) : Option Int :=
  match pyTransformDecimal s.data with
  | none => none
  | some ascii =>
    let t := ((ascii.dropWhile isPyWS).reverse.dropWhile isPyWS).reverse
    match t with
    | '+' :: ds => (digitsVal ds).map (fun n => (n : Int))
    | '-' :: ds => (digitsVal ds).map (fun n => -(n : Int))
    | ds => (digitsVal ds).map (fun n => (n : Int))

/-- Python `urllib.parse.parse_qsl` with default arguments: split the query on
`&`, drop empty fragments, drop fragments without `=` and fragments with an
empty value, split each at the first `=`, and `unquote_plus` names and values. -/
def parse_qsl (qs : String) : List (String × String) :=
  (splitCh '&' qs.data).filterMap (fun part =>
    if part = [] then none
    else
      match splitCh '=' part with
      | [] => none
      | [_] => none
      | nm :: v0 :: vrest =>
        let value := joinSep "=" ((⟨v0⟩ : String) :: vrest.map (fun l => (⟨l⟩ : String)))
        if value = "" then none
        else some (unquote_plus ⟨nm⟩, unquote_plus value))

/-- First value for `key` in the parsed query: `parse_qs(qs)[key][0]` exists
exactly when this is `some`, and then equals it (the `parse_qs` dict groups
values in parse order). -/
def qsFirst (qs key : String) : Option String :=
  ((parse_qsl qs).filter (fun p => p.1 = key)).head?.map (fun p => p.2)

/-- The `entry_offset` computation of `lambda_handler` (lines 495–497): `0`
when no `entry` parameter is in the query, `int(...)` of its first value
otherwise, where a failed parse raises. -/
def parseEntry (qs : String) : Except PyExn Int :=
  match qsFirst qs "entry" with
  | none => .ok 0
  | some v =>
    match pyInt v with
    | some i => .ok i
    | none => .error (.valueError v)


/-! ## Data model -/

/-- A `datetime` value as the renderer consumes it: the code calls
`replace(microsecond=0)` and then renders `isoformat()` and `strftime("%c")`;
we model the value abstractly by those two renderings. -/
structure PyDatetime where
  iso0 : String
  human : String
  deriving DecidableEq, Repr

/-- One record of the `Contents` array of a `list_objects_v2` page: the key,
the size (`Size`, always present for objects), and the `LastModified`
timestamp when present. -/
structure ContentEntry where
  key : String
  size : Nat
  lastModified : Option PyDatetime
  deriving DecidableEq, Repr

/-- One `list_objects_v2` result page: `CommonPrefixes` (directory prefixes),
`Contents` (object records) and the `IsTruncated` continuation flag. -/
structure Page where
  commonPrefixes : List String
  contents : List ContentEntry
  isTruncated : Bool
  deriving DecidableEq, Repr

/-- The `S3Path` class of the source: a normalized entry.  `name` is computed
by the constructor as `Path(absolute).name`. -/
structure S3Path where
  isDir : Bool
  absolute : String
  name : String
  size : Nat
  lastModified : Option PyDatetime
  deriving DecidableEq, Repr

/-- `S3Path.is_symlink` of the source: always `False`. -/
def S3Path.isSymlink (_ : S3Path) : Bool := false

/-- `S3Path(True, entry)` built from a `CommonPrefixes` record: the prefix is
left-stripped of `/`, size defaults to 0, no timestamp. -/
def S3Path.ofPrefixEntry (p : String) : S3Path :=
  let a := pyLstripSlash p
  { isDir := true, absolute := a, name := pathName a, size := 0, lastModified := none }

/-- `S3Path(False, entry)` built from a `Contents` record. -/
def S3Path.ofContent (c : ContentEntry) : S3Path :=
  { isDir := false, absolute := c.key, name := pathName c.key, size := c.size,
    lastModified := c.lastModified }

/-- What the `s3_list_dir` generator yields: entries, or — because its body is
wrapped in `try/except` that ends with `yield e` — a raised exception as the
final item. -/
inductive StreamItem where
  | entry (e : S3Path)
  | exn (e : PyExn)
  deriving DecidableEq, Repr

/-! ## `s3_list_dir` -/

/-- The page loop of `s3_list_dir`: each successful page yields its
`CommonPrefixes` entries then its `Contents` entries (suppressing an object
whose key equals the queried prefix — a directory-marker object), and the loop
continues while `IsTruncated` holds; a failing call yields the exception and
stops.  The store is modelled by the list of results of the successive
`list_objects_v2` calls. -/
def pageStream (pfx : String) : List (Except PyExn Page) → List StreamItem
  | [] => []
  | .error e :: _ => [.exn e]
  | .ok p :: rest =>
    (p.commonPrefixes.map (fun cp => .entry (S3Path.ofPrefixEntry cp))) ++
      ((p.contents.filter (fun c => c.key ≠ pfx)).map
        (fun c => .entry (S3Path.ofContent c))) ++
      (if p.isTruncated then pageStream pfx rest else [])

/-- `s3_list_dir(s3_conn, bucket, dir_path)`: left-strip `/` from the
directory path, turn it into a listing prefix (`''` for the root sentinels
`''`/`'.'`/`'/'`, otherwise right-stripped of `/` with a single `/`
appended), and enumerate the store's pages for that prefix.  `store` plays the
role of `s3_conn` for the fixed bucket: it maps the queried prefix to the
successive call results. -/
def s3_list_dir (store : String → List (Except PyExn Page)) (dir_path : String) :
    List StreamItem :=
  let dp := pyLstripSlash dir_path
  let pfx := if dp ≠ "" ∧ dp ≠ "." ∧ dp ≠ "/" then pyRstripSlash dp ++ "/" else ""
  pageStream pfx (store pfx)

/-! ## `pretty_size` -/

/-- A unit suffix of `UNITS_MAPPING`: a plain string, or the
(singular, plural) pair of the byte tier. -/
inductive PySuffix where
  | str (s : String)
  | tuple (sing mult : String)
  deriving DecidableEq, Repr

/-- The `UNITS_MAPPING` table of the source. -/
def UNITS_MAPPING : List (Nat × PySuffix) :=
  [(1024 ^ 5, .str " PB"),
   (1024 ^ 4, .str " TB"),
   (1024 ^ 3, .str " GB"),
   (1024 ^ 2, .str " MB"),
   (1024 ^ 1, .str " KB"),
   (1024 ^ 0, .tuple " byte" " bytes")]

/-- The `for factor, suffix in units: if bytes >= factor: break` loop: the
first pair whose factor is at most `bytes`; when none matches the loop ends
with the last pair still bound (Python leaves the loop variables at their
final iteration).  The `[]` case is unreachable for the concrete
`UNITS_MAPPING`. -/
def unitsLoop (bytes : Nat) : List (Nat × PySuffix) → Nat × PySuffix
  | [] => (1, .tuple " byte" " bytes")
  | [u] => u
  | u :: rest => if u.1 ≤ bytes then u else unitsLoop bytes rest

/-- Fuel-indexed floor base-2 logarithm; fuel at least `n` never runs out. -/
def log2F : Nat → Nat → Nat
  | 0, _ => 0
  | fuel + 1, n => if 2 ≤ n then log2F fuel (n / 2) + 1 else 0

/-- Floor base-2 logarithm. -/
def natLog2 (n : Nat) : Nat := log2F n n

/-- Round the rational `num / den` to the nearest integer, ties to even. -/
def roundNearestEven (num den : Nat) : Nat :=
  let q := num / den
  let r := num % den
  if 2 * r < den then q
  else if den < 2 * r then q + 1
  else if q % 2 = 0 then q else q + 1

/-- `int(a / b)` for Python ints: CPython's int true division produces the
binary64 value nearest to the exact quotient (ties to even), and `int()`
truncates it toward zero.  The significand is obtained by scaling the exact
quotient so that its integer part has 53 bits and rounding to nearest-even.
For `a < b` the quotient rounds below 1 whenever `b` is at most `2 ^ 52`
(true of every factor in the units table), so the result is 0.  The model
assumes the quotient is within binary64 range (otherwise CPython raises
`OverflowError`), far beyond the unit table's domain. -/
def pyFloatDivInt (a b : Nat) : Nat :=
  if a = 0 ∨ b = 0 then 0
  else if a < b then 0
  else
    let E := natLog2 (a / b)
    if E ≤ 52 then roundNearestEven (a * 2 ^ (52 - E)) b / 2 ^ (52 - E)
    else roundNearestEven a (b * 2 ^ (E - 52)) * 2 ^ (E - 52)

/-- `pretty_size(bytes)` of the source with the default units table.
`amount = int(bytes / factor)` is binary64 true division truncated
(`pyFloatDivInt`); for byte counts below `2 ^ 53` this coincides with floor
division, beyond it the rounding can differ. -/
def pretty_size (bytes : Nat) : String :=
  let fs := unitsLoop bytes UNITS_MAPPING
  let amount := pyFloatDivInt bytes fs.1
  match fs.2 with
  | .str sfx => toString amount ++ sfx
  | .tuple sing mult => toString amount ++ (if amount = 1 then sing else mult)

/-! ## `process_dir` -/

/-- First part of the `body_top` template literal of `process_dir`, up to the
interpolation of `path_top_dir.name` inside the `<h1>` element. -/
def bodyTopA : String :=
  "<!DOCTYPE html>\n<html>\n<head>\n    <meta charset=\"utf-8\">\n    <meta name=\"viewport\" content=\"width=device-width, initial-scale=1.0\">\n    <style>\n    * \x7b padding: 0; margin: 0; \x7d\n\n    body \x7b\n        font-family: sans-serif;\n        text-rendering: optimizespeed;\n        background-color: #ffffff;\n    \x7d\n\n    a \x7b\n        color: #006ed3;\n        text-decoration: none;\n    \x7d\n\n    a:hover,\n    h1 a:hover \x7b\n        color: #319cff;\n    \x7d\n\n    header,\n    #summary \x7b\n        padding-left: 5%;\n        padding-right: 5%;\n    \x7d\n\n    th:first-child,\n    td:first-child \x7b\n        width: 5%;\n    \x7d\n\n    th:last-child,\n    td:last-child \x7b\n        width: 5%;\n    \x7d\n\n    header \x7b\n        padding-top: 25px;\n        padding-bottom: 15px;\n        background-color: #f2f2f2;\n    \x7d\n\n    h1 \x7b\n        font-size: 20px;\n        font-weight: normal;\n        white-space: nowrap;\n        overflow-x: hidden;\n        text-overflow: ellipsis;\n        color: #999;\n    \x7d\n\n    h1 a \x7b\n        color: #000;\n        margin: 0 4px;\n    \x7d\n\n    h1 a:hover \x7b\n        text-decoration: underline;\n    \x7d\n\n    h1 a:first-child \x7b\n        margin: 0;\n    \x7d\n\n    main \x7b\n        display: block;\n    \x7d\n\n    .meta \x7b\n        font-size: 12px;\n        font-family: Verdana, sans-serif;\n        border-bottom: 1px solid #9C9C9C;\n        padding-top: 10px;\n        padding-bottom: 10px;\n    \x7d\n\n    .meta-item \x7b\n        margin-right: 1em;\n    \x7d\n\n    #filter \x7b\n        padding: 4px;\n        border: 1px solid #CCC;\n    \x7d\n\n    table \x7b\n        width: 100%;\n        border-collapse: collapse;\n    \x7d\n\n    tr \x7b\n        border-bottom: 1px dashed #dadada;\n    \x7d\n\n    tbody tr:hover \x7b\n        background-color: #ffffec;\n    \x7d\n\n    th,\n    td \x7b\n        text-align: left;\n        padding: 10px 0;\n    \x7d\n\n    th \x7b\n        padding-top: 15px;\n        padding-bottom: 15px;\n        font-size: 16px;\n        white-space: nowrap;\n    \x7d\n\n    th a \x7b\n        color: black;\n    \x7d\n\n    th svg \x7b\n        vertical-align: middle;\n    \x7d\n\n    td \x7b\n        white-space: nowrap;\n        font-size: 14px;\n    \x7d\n\n    td:nth-child(2) \x7b\n        width: 80%;\n    \x7d\n\n    td:nth-child(3) \x7b\n        padding: 0 20px 0 20px;\n    \x7d\n\n    th:nth-child(4),\n    td:nth-child(4) \x7b\n        text-align: right;\n    \x7d\n\n    td:nth-child(2) svg \x7b\n        position: absolute;\n    \x7d\n\n    td .name \x7b\n        margin-left: 1.75em;\n        word-break: break-all;\n        overflow-wrap: break-word;\n        white-space: pre-wrap;\n    \x7d\n\n    td .goup \x7b\n        margin-left: 1.75em;\n        padding: 0;\n        word-break: break-all;\n        overflow-wrap: break-word;\n        white-space: pre-wrap;\n    \x7d\n\n    .icon \x7b\n        margin-right: 5px;\n    \x7d\n\n    tr.clickable \x7b \n        cursor: pointer; \n    \x7d \n    tr.clickable a \x7b \n        display: block; \n    \x7d \n\n    @media (max-width: 600px) \x7b\n\n        * \x7b\n            font-size: 1.06rem;\n        \x7d\n        .hideable \x7b\n            display: none;\n        \x7d\n\n        td:nth-child(2) \x7b\n            width: auto;\n        \x7d\n\n        th:nth-child(3),\n        td:nth-child(3) \x7b\n            padding-right: 5%;\n            text-align: right;\n        \x7d\n\n        h1 \x7b\n            color: #000;\n        \x7d\n\n        h1 a \x7b\n            margin: 0;\n        \x7d\n\n        #filter \x7b\n            max-width: 100px;\n        \x7d\n    \x7d\n    </style>\n</head>\n<body>\n    <svg version=\"1.1\" xmlns=\"http://www.w3.org/2000/svg\" xmlns:xlink=\"http://www.w3.org/1999/xlink\" height=\"0\" width=\"0\" style=\"position: absolute;\">\n    <defs>\n        <!-- Go-up -->\n        <g id=\"go-up\">\n            <path d=\"M10,9V5L3,12L10,19V14.9C15,14.9 18.5,16.5 21,20C20,15 17,10 10,9Z\" fill=\"#696969\"/>\n        </g>\n\n        <!-- Folder -->\n        <g id=\"folder\" fill-rule=\"nonzero\" fill=\"none\">\n            <path d=\"M285.22 37.55h-142.6L110.9 0H31.7C14.25 0 0 16.9 0 37.55v75.1h316.92V75.1c0-20.65-14.26-37.55-31.7-37.55z\" fill=\"#FFA000\"/>\n            <path d=\"M285.22 36H31.7C14.25 36 0 50.28 0 67.74v158.7c0 17.47 14.26 31.75 31.7 31.75H285.2c17.44 0 31.7-14.3 31.7-31.75V67.75c0-17.47-14.26-31.75-31.7-31.75z\" fill=\"#FFCA28\"/>\n        </g>\n        <g id=\"folder-shortcut\" stroke=\"none\" stroke-width=\"1\" fill=\"none\" fill-rule=\"evenodd\">\n            <g id=\"folder-shortcut-group\" fill-rule=\"nonzero\">\n                <g id=\"folder-shortcut-shape\">\n                    <path d=\"M285.224876,37.5486902 L142.612438,37.5486902 L110.920785,0 L31.6916529,0 C14.2612438,0 0,16.8969106 0,37.5486902 L0,112.646071 L316.916529,112.646071 L316.916529,75.0973805 C316.916529,54.4456008 302.655285,37.5486902 285.224876,37.5486902 Z\" id=\"Shape\" fill=\"#FFA000\"></path>\n                    <path d=\"M285.224876,36 L31.6916529,36 C14.2612438,36 0,50.2838568 0,67.7419039 L0,226.451424 C0,243.909471 14.2612438,258.193328 31.6916529,258.193328 L285.224876,258.193328 C302.655285,258.193328 316.916529,243.909471 316.916529,226.451424 L316.916529,67.7419039 C316.916529,50.2838568 302.655285,36 285.224876,36 Z\" id=\"Shape\" fill=\"#FFCA28\"></path>\n                </g>\n                <path d=\"M126.154134,250.559184 C126.850974,251.883673 127.300549,253.006122 127.772602,254.106122 C128.469442,255.206122 128.919016,256.104082 129.638335,257.002041 C130.559962,258.326531 131.728855,259 133.100057,259 C134.493737,259 135.415364,258.55102 136.112204,257.67551 C136.809044,257.002041 137.258619,255.902041 137.258619,254.577551 C137.258619,253.904082 137.258619,252.804082 137.033832,251.457143 C136.786566,249.908163 136.561779,249.032653 136.561779,248.583673 C136.089726,242.814286 135.864939,237.920408 135.864939,233.273469 C135.864939,225.057143 136.786566,217.514286 138.180246,210.846939 C139.798713,204.202041 141.889234,198.634694 144.429328,193.763265 C147.216689,188.869388 150.678411,184.873469 154.836973,181.326531 C158.995535,177.779592 163.626149,174.883673 168.481552,172.661224 C173.336954,170.438776 179.113983,168.665306 185.587852,167.340816 C192.061722,166.218367 198.760378,165.342857 205.481514,164.669388 C212.18017,164.220408 219.598146,163.995918 228.162535,163.995918 L246.055591,163.995918 L246.055591,195.514286 C246.055591,197.736735 246.752431,199.510204 248.370899,201.059184 C250.214153,202.608163 252.079886,203.506122 254.372715,203.506122 C256.463236,203.506122 258.531277,202.608163 260.172223,201.059184 L326.102289,137.797959 C327.720757,136.24898 328.642384,134.47551 328.642384,132.253061 C328.642384,130.030612 327.720757,128.257143 326.102289,126.708163 L260.172223,63.4469388 C258.553756,61.8979592 256.463236,61 254.395194,61 C252.079886,61 250.236632,61.8979592 248.393377,63.4469388 C246.77491,64.9959184 246.07807,66.7693878 246.07807,68.9918367 L246.07807,100.510204 L228.162535,100.510204 C166.863084,100.510204 129.166282,117.167347 115.274437,150.459184 C110.666301,161.54898 108.350993,175.310204 108.350993,191.742857 C108.350993,205.279592 113.903236,223.912245 124.760454,247.438776 C125.00772,248.112245 125.457294,249.010204 126.154134,250.559184 Z\" id=\"Shape\" fill=\"#FFFFFF\" transform=\"translate(218.496689, 160.000000) scale(-1, 1) translate(-218.496689, -160.000000) \"></path>\n            </g>\n        </g>\n\n        <!-- File -->\n        <g id=\"file\" stroke=\"#000\" stroke-width=\"25\" fill=\"#FFF\" fill-rule=\"evenodd\" stroke-linecap=\"round\" stroke-linejoin=\"round\">\n            <path d=\"M13 24.12v274.76c0 6.16 5.87 11.12 13.17 11.12H239c7.3 0 13.17-4.96 13.17-11.12V136.15S132.6 13 128.37 13H26.17C18.87 13 13 17.96 13 24.12z\"/>\n            <path d=\"M129.37 13L129 113.9c0 10.58 7.26 19.1 16.27 19.1H249L129.37 13z\"/>\n        </g>\n        <g id=\"file-shortcut\" stroke=\"none\" stroke-width=\"1\" fill=\"none\" fill-rule=\"evenodd\">\n            <g id=\"file-shortcut-group\" transform=\"translate(13.000000, 13.000000)\">\n                <g id=\"file-shortcut-shape\" stroke=\"#000000\" stroke-width=\"25\" fill=\"#FFFFFF\" stroke-linecap=\"round\" stroke-linejoin=\"round\">\n                    <path d=\"M0,11.1214886 L0,285.878477 C0,292.039924 5.87498876,296.999983 13.1728373,296.999983 L225.997983,296.999983 C233.295974,296.999983 239.17082,292.039942 239.17082,285.878477 L239.17082,123.145388 C239.17082,123.145388 119.58541,2.84217094e-14 115.369423,2.84217094e-14 L13.1728576,2.84217094e-14 C5.87500907,-1.71479982e-05 0,4.96022995 0,11.1214886 Z\" id=\"rect1171\"></path>\n                    <path d=\"M116.37005,0 L116,100.904964 C116,111.483663 123.258008,120 132.273377,120 L236,120 L116.37005,0 L116.37005,0 Z\" id=\"rect1794\"></path>\n                </g>\n                <path d=\"M47.803141,294.093878 C48.4999811,295.177551 48.9495553,296.095918 49.4216083,296.995918 C50.1184484,297.895918 50.5680227,298.630612 51.2873415,299.365306 C52.2089688,300.44898 53.3778619,301 54.7490634,301 C56.1427436,301 57.0643709,300.632653 57.761211,299.916327 C58.4580511,299.365306 58.9076254,298.465306 58.9076254,297.381633 C58.9076254,296.830612 58.9076254,295.930612 58.6828382,294.828571 C58.4355724,293.561224 58.2107852,292.844898 58.2107852,292.477551 C57.7387323,287.757143 57.5139451,283.753061 57.5139451,279.95102 C57.5139451,273.228571 58.4355724,267.057143 59.8292526,261.602041 C61.44772,256.165306 63.5382403,251.610204 66.0783349,247.62449 C68.8656954,243.620408 72.3274172,240.35102 76.4859792,237.44898 C80.6445412,234.546939 85.2751561,232.177551 90.1305582,230.359184 C94.9859603,228.540816 100.76299,227.089796 107.236859,226.006122 C113.710728,225.087755 120.409385,224.371429 127.13052,223.820408 C133.829177,223.453061 141.247152,223.269388 149.811542,223.269388 L167.704598,223.269388 L167.704598,249.057143 C167.704598,250.87551 168.401438,252.326531 170.019905,253.593878 C171.86316,254.861224 173.728893,255.595918 176.021722,255.595918 C178.112242,255.595918 180.180284,254.861224 181.82123,253.593878 L247.751296,201.834694 C249.369763,200.567347 250.291391,199.116327 250.291391,197.297959 C250.291391,195.479592 249.369763,194.028571 247.751296,192.761224 L181.82123,141.002041 C180.202763,139.734694 178.112242,139 176.044201,139 C173.728893,139 171.885639,139.734694 170.042384,141.002041 C168.423917,142.269388 167.727077,143.720408 167.727077,145.538776 L167.727077,171.326531 L149.811542,171.326531 C88.5120908,171.326531 50.8152886,184.955102 36.9234437,212.193878 C32.3153075,221.267347 30,232.526531 30,245.971429 C30,257.046939 35.5522422,272.291837 46.4094607,291.540816 C46.6567266,292.091837 47.1063009,292.826531 47.803141,294.093878 Z\" id=\"Shape-Copy\" fill=\"#000000\" fill-rule=\"nonzero\" transform=\"translate(140.145695, 220.000000) scale(-1, 1) translate(-140.145695, -220.000000) \"></path>\n            </g>\n        </g>\n    </defs>\n    </svg>\n<header>\n    <h1>"

/-- Second part of the `body_top` template literal of `process_dir`, after the
interpolation of `path_top_dir.name`. -/
def bodyTopB : String :=
  "</h1>\n             </header>\n                 <main>\n                 <div class=\"listing\">\n                     <table aria-describedby=\"summary\">\n                         <thead>\n                         <tr>\n                             <th></th>\n                             <th>Name</th>\n                             <th>Size</th>\n                             <th class=\"hideable\">\n                                 Modified\n                             </th>\n                             <th class=\"hideable\"></th>\n                         </tr>\n                         </thead>\n                         <tbody>\n                         <tr class=\"clickable\">\n                             <td></td>\n                             <td><a href=\"..\"><svg width=\"1.5em\" height=\"1em\" version=\"1.1\" viewBox=\"0 0 24 24\"><use xlink:href=\"#go-up\"></use></svg>\n                 <span class=\"goup\">..</span></a></td>\n                             <td>&mdash;</td>\n                             <td class=\"hideable\">&mdash;</td>\n                             <td class=\"hideable\"></td>\n                         </tr>\n    "

/-- Literal fragment of the per-entry row f-string of `process_dir`, before `quote(entry_path)`. -/
def rowP0 : String :=
  "\n        <tr class=\"file\">\n            <td></td>\n            <td>\n                <a href=\""

/-- Literal fragment of the per-entry row f-string of `process_dir`, between `quote(entry_path)` and `entry_type`. -/
def rowP1 : String :=
  "\">\n                    <svg width=\"1.5em\" height=\"1em\" version=\"1.1\" viewBox=\"0 0 265 323\"><use xlink:href=\"#"

/-- Literal fragment of the per-entry row f-string of `process_dir`, between `entry_type` and `entry.name`. -/
def rowP2 : String :=
  "\"></use></svg>\n                    <span class=\"name\">"

/-- Literal fragment of the per-entry row f-string of `process_dir`, between `entry.name` and `size_bytes`. -/
def rowP3 : String :=
  "</span>\n                </a>\n            </td>\n            <td data-order=\""

/-- Literal fragment of the per-entry row f-string of `process_dir`, between `size_bytes` and `size_pretty`. -/
def rowP4 : String :=
  "\">"

/-- Literal fragment of the per-entry row f-string of `process_dir`, between `size_pretty` and `last_modified_iso`. -/
def rowP5 : String :=
  "</td>\n            <td class=\"hideable\"><time datetime=\""

/-- Literal fragment of the per-entry row f-string of `process_dir`, between `last_modified_iso` and `last_modified_human_readable`. -/
def rowP6 : String :=
  "\">"

/-- Literal fragment of the per-entry row f-string of `process_dir`, after `last_modified_human_readable`. -/
def rowP7 : String :=
  "</time></td>\n            <td class=\"hideable\"></td>\n        </tr>\n"

/-- Literal fragment of the truncation notice f-string, before `entry_count + 1`. -/
def truncA : String :=
  "<tr><td></td><td><b>Listing truncated...</b> <a href=\"?entry="

/-- Literal fragment of the truncation notice f-string, after `entry_count + 1`. -/
def truncB : String :=
  "\">Next Page</a></td><td></td><td></td><td></td></tr>\n"

/-- The closing markup written to `index_file` after the entry loop. -/
def footerStr : String :=
  "\n            </tbody>\n        </table>\n    </div>\n</main>\n</body>\n</html>"


/-- The metadata a row renders: `size_bytes`, `size_pretty`,
`last_modified_iso` and `last_modified_human_readable`. -/
structure RowMeta where
  sizeBytes : Int
  pretty : String
  iso : String
  human : String
  deriving DecidableEq, Repr

/-- The per-entry metadata block of `process_dir` (lines 415–430): directories
keep the defaults (`-1`, `&mdash;`, `''`, `'-'`); for a file the size is
formatted and `last_modified().replace(microsecond=0)` is rendered — when
`LastModified` is absent that call raises on `None` and the `except` branch
drops the entry, which this models as `none`. -/
def inspectMeta (e : S3Path) : Option RowMeta :=
  if e.isDir then
    some { sizeBytes := -1, pretty := "&mdash;", iso := "", human := "-" }
  else
    match e.lastModified with
    | none => none
    | some dt =>
      some { sizeBytes := (e.size : Int), pretty := pretty_size e.size,
             iso := dt.iso0, human := dt.human }

/-- `entry_path`: the directory branch appends a trailing separator
(`os.path.join(entry.name, '')`; the deployment target is POSIX, not
Windows). -/
def entryPathOf (e : S3Path) : String :=
  if e.isDir && !e.isSymlink then e.name ++ "/" else e.name

/-- The `entry_type` icon-class chain of the source; `is_symlink()` is
constantly `False`, so only `folder` and `file` are reachable. -/
def entryTypeOf (e : S3Path) : String :=
  if e.isDir && !e.isSymlink then "folder"
  else if e.isDir && e.isSymlink then "folder-shortcut"
  else if !e.isDir && e.isSymlink then "file-shortcut"
  else "file"

/-- The row written by `index_file.write(f"""...""")` for one entry, with the
f-string split at its interpolation points. -/
def rowOf (e : S3Path) (m : RowMeta) : String :=
  rowP0 ++ quote (entryPathOf e) ++ rowP1 ++ entryTypeOf e ++ rowP2 ++ e.name ++
    rowP3 ++ toString m.sizeBytes ++ rowP4 ++ m.pretty ++ rowP5 ++ m.iso ++
    rowP6 ++ m.human ++ rowP7

/-- Total length of the rows written so far: `index_file.tell()` equals the
sum of the lengths of the strings written to the `StringIO`. -/
def sumLen (rows : List String) : Nat :=
  (rows.map String.length).sum

/-- The truncation notice appended to `body_top` when the size cap trips:
`?entry={entry_count + 1}`. -/
def truncNote : Option Nat → String
  | none => ""
  | some n => truncA ++ toString n ++ truncB

/-- The entry loop of `process_dir`.  State: pagination offset `off`
(`entry_offset`), running `count` (`entry_count`), and the rows written to
`index_file` so far.  Per entry: a yielded exception is re-raised; a name
lowering to `index.html` is skipped before counting; the count is bumped; the
entry is skipped while `entry_count < entry_offset`; a metadata failure skips
the entry; otherwise its row is written, and if `tell()` then exceeds
1,000,000 the loop breaks, recording `entry_count + 1` for the truncation
notice.  Returns the rows, the final count, and the notice index if any. -/
def processLoop : List StreamItem → Int → Nat → List String →
    Except PyExn (List String × Nat × Option Nat)
  | [], _, count, rows => .ok (rows, count, none)
  | .exn e :: _, _, _, _ => .error e
  | .entry e :: rest, off, count, rows =>
    if pyLower e.name = "index.html" then processLoop rest off count rows
    else
      let c := count + 1
      if (c : Int) < off then processLoop rest off c rows
      else
        match inspectMeta e with
        | none => processLoop rest off c rows
        | some m =>
          let rows2 := rows ++ [rowOf e m]
          if 1000000 < sumLen rows2 then .ok (rows2, c, some (c + 1))
          else processLoop rest off c rows2

/-- Concatenation of the rows written to `index_file` (its `getvalue()`
before the footer). -/
def strJoin (rows : List String) : String :=
  rows.foldl (fun a b => a ++ b) ""

/-- `process_dir(s3_conn, bucket, path_top_dir, entry_offset)`.
`path_top_dir` is the `str()` of the `Path` the handler passes (a `Path` is
always truthy, so the `if not path_top_dir: return None` guard is
unreachable from the handler and elided).  The document is
`body_top` — with the truncation notice appended to it when the cap
tripped — followed by the written rows and the closing markup; the returned
pair is `(document, entry_count)` and a raised exception propagates. -/
def process_dir (store : String → List (Except PyExn Page)) (path_top_dir : String)
    (entry_offset : Int) : Except PyExn (String × Nat) :=
  match processLoop (s3_list_dir store path_top_dir) entry_offset 0 [] with
  | .error e => .error e
  | .ok (rows, cnt, trunc) =>
    .ok (bodyTopA ++ pathName path_top_dir ++ bodyTopB ++ truncNote trunc ++
          strJoin rows ++ footerStr, cnt)

/-! ## `lambda_handler` -/

/-- One `{'key': ..., 'value': ...}` record of a CloudFront header list. -/
structure HeaderEntry where
  key : String
  value : String
  deriving DecidableEq, Repr

/-- The CloudFront request record (`event['Records'][0]['cf']['request']`):
the handler reads `uri` and `querystring`; `headers` and the remaining fields
are carried only so that "returned unmodified" is meaningful. -/
structure Request where
  uri : String
  querystring : String
  headers : List (String × List HeaderEntry)
  rest : List (String × String)
  deriving DecidableEq, Repr

/-- The synthesized response dict of `lambda_handler`. -/
structure HttpResponse where
  status : String
  statusDescription : String
  headers : List (String × List HeaderEntry)
  body : String
  deriving DecidableEq, Repr

/-- What the handler returns when it does not raise: the original request
(passthrough) or a synthesized response. -/
inductive LambdaResult where
  | passthrough (r : Request)
  | response (r : HttpResponse)
  deriving DecidableEq, Repr

/-- The literal 200 response of the source, for a given body. -/
def okResponse (body : String) : HttpResponse :=
  { status := "200",
    statusDescription := "OK",
    headers :=
      [("cache-control", [{ key := "Cache-Control", value := "max-age=0" }]),
       ("content-type", [{ key := "Content-Type", value := "text/html" }])],
    body := body }

/-- The `dir_key` derivation of `lambda_handler` (lines 505–511), applied to
the already-decoded URI. -/
def dir_key (uri : String) : String :=
  if strEndsWith uri "/" then pyRstripSlash uri
  else if strEndsWith uri "index.html" then rsplitHead uri
  else uri

/-- `lambda_handler(event, context)` for the request inside the event.  In
source order: parse the `entry` query parameter (`int()` may raise), pass the
request through when the **raw** URI contains `..`, percent-decode the URI,
derive `dir_key`, render the listing for `Path(dir_key)`, and return the
request untouched when no entry was seen, else the 200 response. -/
def lambda_handler (store : String → List (Except PyExn Page)) (request : Request) :
    Except PyExn LambdaResult :=
  match parseEntry request.querystring with
  | .error e => .error e
  | .ok entry_offset =>
    if strContains request.uri ".." then .ok (.passthrough request)
    else
      let uri := unquote request.uri
      match process_dir store (pathStr (dir_key uri)) entry_offset with
      | .error e => .error e
      | .ok (content, entry_count) =>
        if entry_count = 0 then .ok (.passthrough request)
        else .ok (.response (okResponse content))


/-! ## Renderer helper notions used by the theorems -/

/-- An entry item that renders a row: not a yielded exception, name does not
lower to `index.html`, and metadata inspection succeeds. -/
def goodItem : StreamItem → Bool
  | .entry e => (pyLower e.name ≠ "index.html" : Bool) && (inspectMeta e).isSome
  | .exn _ => false

/-- The row an item renders (empty for items that never render one). -/
def rowOfItem : StreamItem → String
  | .entry e =>
    (match inspectMeta e with
     | some m => rowOf e m
     | none => "")
  | .exn _ => ""

/-- Total rendered length of a stream's rows. -/
def rowLenSum (l : List StreamItem) : Nat :=
  sumLen (l.map rowOfItem)

/-- The rows of a loop result (empty on a raise). -/
def resultRows : Except PyExn (List String × Nat × Option Nat) → List String
  | .ok (rows, _, _) => rows
  | .error _ => []

/-! ## Unfolding lemmas for `processLoop` -/

theorem processLoop_nil (off : Int) (count : Nat) (rows : List String) :
    processLoop [] off count rows = .ok (rows, count, none) := rfl

theorem processLoop_exn (e : PyExn) (rest : List StreamItem) (off : Int)
    (count : Nat) (rows : List String) :
    processLoop (.exn e :: rest) off count rows = .error e := rfl

theorem processLoop_entry (e : S3Path) (rest : List StreamItem) (off : Int)
    (count : Nat) (rows : List String) :
    processLoop (.entry e :: rest) off count rows =
      if pyLower e.name = "index.html" then processLoop rest off count rows
      else if ((count + 1 : Nat) : Int) < off then processLoop rest off (count + 1) rows
      else
        match inspectMeta e with
        | none => processLoop rest off (count + 1) rows
        | some m =>
          if 1000000 < sumLen (rows ++ [rowOf e m]) then
            .ok (rows ++ [rowOf e m], count + 1, some (count + 1 + 1))
          else processLoop rest off (count + 1) (rows ++ [rowOf e m]) := rfl

theorem processLoop_skipname (e : S3Path) (rest : List StreamItem) (off : Int)
    (count : Nat) (rows : List String) (h : pyLower e.name = "index.html") :
    processLoop (.entry e :: rest) off count rows = processLoop rest off count rows := by
  rw [processLoop_entry, if_pos h]

theorem processLoop_skipoffset (e : S3Path) (rest : List StreamItem) (off : Int)
    (count : Nat) (rows : List String) (h1 : ¬ pyLower e.name = "index.html")
    (h2 : ((count + 1 : Nat) : Int) < off) :
    processLoop (.entry e :: rest) off count rows = processLoop rest off (count + 1) rows := by
  rw [processLoop_entry, if_neg h1, if_pos h2]

theorem processLoop_skipmeta (e : S3Path) (rest : List StreamItem) (off : Int)
    (count : Nat) (rows : List String) (h1 : ¬ pyLower e.name = "index.html")
    (h2 : ¬ ((count + 1 : Nat) : Int) < off) (h3 : inspectMeta e = none) :
    processLoop (.entry e :: rest) off count rows = processLoop rest off (count + 1) rows := by
  rw [processLoop_entry, if_neg h1, if_neg h2, h3]

theorem processLoop_render_break (e : S3Path) (rest : List StreamItem) (off : Int)
    (count : Nat) (rows : List String) (m : RowMeta)
    (h1 : ¬ pyLower e.name = "index.html") (h2 : ¬ ((count + 1 : Nat) : Int) < off)
    (h3 : inspectMeta e = some m) (h4 : 1000000 < sumLen (rows ++ [rowOf e m])) :
    processLoop (.entry e :: rest) off count rows =
      .ok (rows ++ [rowOf e m], count + 1, some (count + 1 + 1)) := by
  rw [processLoop_entry, if_neg h1, if_neg h2, h3]
  exact if_pos h4

theorem processLoop_render_cont (e : S3Path) (rest : List StreamItem) (off : Int)
    (count : Nat) (rows : List String) (m : RowMeta)
    (h1 : ¬ pyLower e.name = "index.html") (h2 : ¬ ((count + 1 : Nat) : Int) < off)
    (h3 : inspectMeta e = some m) (h4 : ¬ 1000000 < sumLen (rows ++ [rowOf e m])) :
    processLoop (.entry e :: rest) off count rows =
      processLoop rest off (count + 1) (rows ++ [rowOf e m]) := by
  rw [processLoop_entry, if_neg h1, if_neg h2, h3]
  exact if_neg h4

/-! ## Arithmetic helpers -/

theorem sumLen_append (a b : List String) : sumLen (a ++ b) = sumLen a + sumLen b := by
  simp [sumLen]

theorem sumLen_single (s : String) : sumLen [s] = s.length := by
  simp [sumLen]

theorem rowLenSum_cons (x : StreamItem) (l : List StreamItem) :
    rowLenSum (x :: l) = (rowOfItem x).length + rowLenSum l := by
  simp [rowLenSum, sumLen]

/-- A `goodItem` is an entry whose metadata inspection succeeds and whose name
does not lower to `index.html`, and its `rowOfItem` is the actual row. -/
theorem goodItem_elim (x : StreamItem) (h : goodItem x = true) :
    ∃ e m, x = .entry e ∧ pyLower e.name ≠ "index.html" ∧ inspectMeta e = some m ∧
      rowOfItem x = rowOf e m := by
  match x with
  | .exn e => simp [goodItem] at h
  | .entry e =>
    simp only [goodItem, Bool.and_eq_true, decide_eq_true_eq, Option.isSome_iff_exists] at h
    obtain ⟨hn, m, hm⟩ := h
    exact ⟨e, m, rfl, hn, hm, by simp [rowOfItem, hm]⟩

/-! ## Structural lemmas about the entry loop -/

/-- Composition: when processing `a` finishes without truncating or raising,
processing `a ++ b` continues into `b` from the resulting state.  This is the
lazy-generator property: the loop looks at later items only after the earlier
ones neither raised nor tripped the size cap. -/
theorem processLoop_append (a : List StreamItem) :
    ∀ (b : List StreamItem) (off : Int) (count : Nat) (rows rows2 : List String)
      (cnt2 : Nat),
      processLoop a off count rows = .ok (rows2, cnt2, none) →
      processLoop (a ++ b) off count rows = processLoop b off cnt2 rows2 := by
  induction a with
  | nil =>
    intro b off count rows rows2 cnt2 h
    rw [processLoop_nil] at h
    simp only [Except.ok.injEq, Prod.mk.injEq] at h
    obtain ⟨h1, h2, -⟩ := h
    rw [List.nil_append, h1, h2]
  | cons x a' ih =>
    intro b off count rows rows2 cnt2 h
    cases x with
    | exn e => rw [processLoop_exn] at h; exact absurd h (by simp)
    | entry e =>
      rw [List.cons_append]
      by_cases hn : pyLower e.name = "index.html"
      · rw [processLoop_skipname _ _ _ _ _ hn] at h
        rw [processLoop_skipname _ _ _ _ _ hn]
        exact ih _ _ _ _ _ _ h
      · by_cases ho : ((count + 1 : Nat) : Int) < off
        · rw [processLoop_skipoffset _ _ _ _ _ hn ho] at h
          rw [processLoop_skipoffset _ _ _ _ _ hn ho]
          exact ih _ _ _ _ _ _ h
        · cases hm : inspectMeta e with
          | none =>
            rw [processLoop_skipmeta _ _ _ _ _ hn ho hm] at h
            rw [processLoop_skipmeta _ _ _ _ _ hn ho hm]
            exact ih _ _ _ _ _ _ h
          | some m =>
            by_cases hb : 1000000 < sumLen (rows ++ [rowOf e m])
            · rw [processLoop_render_break _ _ _ _ _ _ hn ho hm hb] at h
              simp at h
            · rw [processLoop_render_cont _ _ _ _ _ _ hn ho hm hb] at h
              rw [processLoop_render_cont _ _ _ _ _ _ hn ho hm hb]
              exact ih _ _ _ _ _ _ h

/-- When every item renders, the offset no longer skips, and the size cap is
never reached, the loop renders every row and returns without truncating. -/
theorem processLoop_allGood (l : List StreamItem) :
    ∀ (off : Int) (count : Nat) (rows : List String),
      (∀ x ∈ l, goodItem x = true) → off ≤ (count : Int) + 1 →
      sumLen rows + rowLenSum l ≤ 1000000 →
      processLoop l off count rows =
        .ok (rows ++ l.map rowOfItem, count + l.length, none) := by
  induction l with
  | nil =>
    intro off count rows _ _ _
    simp [processLoop_nil]
  | cons x l' ih =>
    intro off count rows hgood hoff hsize
    obtain ⟨e, m, hx, hn, hm, hrow⟩ := goodItem_elim x (hgood x (by simp))
    subst hx
    have ho : ¬ ((count + 1 : Nat) : Int) < off := by push_cast; omega
    have hsz1 : sumLen (rows ++ [rowOf e m]) = sumLen rows + (rowOf e m).length := by
      rw [sumLen_append, sumLen_single]
    have hrl : rowLenSum (StreamItem.entry e :: l') = (rowOf e m).length + rowLenSum l' := by
      rw [rowLenSum_cons, hrow]
    have hb : ¬ 1000000 < sumLen (rows ++ [rowOf e m]) := by
      rw [hsz1]; omega
    rw [processLoop_render_cont _ _ _ _ _ _ hn ho hm hb]
    rw [ih off (count + 1) (rows ++ [rowOf e m])
      (fun x hx => hgood x (by simp [hx]))
      (by push_cast; omega)
      (by rw [hsz1]; omega)]
    simp only [Except.ok.injEq, Prod.mk.injEq]
    refine ⟨?_, by simp [Nat.add_assoc, Nat.add_comm 1], trivial⟩
    rw [List.append_assoc, List.map_cons, List.singleton_append, hrow]

/-- While the running count stays below the offset, every (renderable) entry
is counted but skipped and no markup is produced. -/
theorem processLoop_skipPhase (l : List StreamItem) :
    ∀ (off : Int) (count : Nat) (rows : List String),
      (∀ x ∈ l, goodItem x = true) → ((count : Int) + l.length < off) →
      processLoop l off count rows = .ok (rows, count + l.length, none) := by
  induction l with
  | nil => intro off count rows _ _; simp [processLoop_nil]
  | cons x l' ih =>
    intro off count rows hgood hlt
    obtain ⟨e, m, hx, hn, hm, hrow⟩ := goodItem_elim x (hgood x (by simp))
    subst hx
    have hl' : (0 : Int) ≤ l'.length := by positivity
    have ho : ((count + 1 : Nat) : Int) < off := by
      simp only [List.length_cons] at hlt; push_cast at hlt ⊢; omega
    rw [processLoop_skipoffset _ _ _ _ _ hn ho]
    rw [ih off (count + 1) rows (fun x hx => hgood x (by simp [hx]))
      (by simp only [List.length_cons] at hlt; push_cast at hlt ⊢; omega)]
    simp only [Except.ok.injEq, Prod.mk.injEq, List.length_cons]
    exact ⟨trivial, by omega, trivial⟩

/-- Over renderable items the loop only ever appends rows: the result extends
the rows accumulated so far. -/
theorem processLoop_extend (l : List StreamItem) :
    ∀ (off : Int) (count : Nat) (rows : List String),
      (∀ x ∈ l, goodItem x = true) →
      ∃ ext cnt tr, processLoop l off count rows = .ok (rows ++ ext, cnt, tr) := by
  induction l with
  | nil => intro off count rows _; exact ⟨[], count, none, by simp [processLoop_nil]⟩
  | cons x l' ih =>
    intro off count rows hgood
    obtain ⟨e, m, hx, hn, hm, hrow⟩ := goodItem_elim x (hgood x (by simp))
    subst hx
    have hg' : ∀ x ∈ l', goodItem x = true := fun x hx => hgood x (by simp [hx])
    by_cases ho : ((count + 1 : Nat) : Int) < off
    · rw [processLoop_skipoffset _ _ _ _ _ hn ho]
      exact ih _ _ _ hg'
    · by_cases hb : 1000000 < sumLen (rows ++ [rowOf e m])
      · rw [processLoop_render_break _ _ _ _ _ _ hn ho hm hb]
        exact ⟨[rowOf e m], count + 1, some (count + 1 + 1), rfl⟩
      · rw [processLoop_render_cont _ _ _ _ _ _ hn ho hm hb]
        obtain ⟨ext, cnt, tr, hres⟩ := ih off (count + 1) (rows ++ [rowOf e m]) hg'
        exact ⟨[rowOf e m] ++ ext, cnt, tr, by rw [hres, List.append_assoc]⟩

/-- Provenance of every rendered row: it was already accumulated, or it is the
row of some entry of the stream whose name does not lower to `index.html` and
whose metadata inspection succeeded. -/
theorem processLoop_row_src (l : List StreamItem) :
    ∀ (off : Int) (count : Nat) (rows : List String) (r : String),
      r ∈ resultRows (processLoop l off count rows) →
      r ∈ rows ∨ ∃ e m, StreamItem.entry e ∈ l ∧ pyLower e.name ≠ "index.html" ∧
        inspectMeta e = some m ∧ r = rowOf e m := by
  induction l with
  | nil => intro off count rows r hr; rw [processLoop_nil] at hr; exact .inl hr
  | cons x l' ih =>
    intro off count rows r hr
    have step : ∀ h2 : r ∈ rows ∨ ∃ e m, StreamItem.entry e ∈ l' ∧
        pyLower e.name ≠ "index.html" ∧ inspectMeta e = some m ∧ r = rowOf e m,
        r ∈ rows ∨ ∃ e m, StreamItem.entry e ∈ x :: l' ∧ pyLower e.name ≠ "index.html" ∧
          inspectMeta e = some m ∧ r = rowOf e m := by
      rintro (h | ⟨e, m, he, hn, hm, hr'⟩)
      · exact .inl h
      · exact .inr ⟨e, m, by simp [he], hn, hm, hr'⟩
    cases x with
    | exn e => rw [processLoop_exn] at hr; simp [resultRows] at hr
    | entry e =>
      by_cases hn : pyLower e.name = "index.html"
      · rw [processLoop_skipname _ _ _ _ _ hn] at hr
        exact step (ih _ _ _ _ hr)
      · by_cases ho : ((count + 1 : Nat) : Int) < off
        · rw [processLoop_skipoffset _ _ _ _ _ hn ho] at hr
          exact step (ih _ _ _ _ hr)
        · cases hm : inspectMeta e with
          | none =>
            rw [processLoop_skipmeta _ _ _ _ _ hn ho hm] at hr
            exact step (ih _ _ _ _ hr)
          | some m =>
            by_cases hb : 1000000 < sumLen (rows ++ [rowOf e m])
            · rw [processLoop_render_break _ _ _ _ _ _ hn ho hm hb] at hr
              simp only [resultRows, List.mem_append, List.mem_singleton] at hr
              rcases hr with h | h
              · exact .inl h
              · exact .inr ⟨e, m, by simp, hn, hm, h⟩
            · rw [processLoop_render_cont _ _ _ _ _ _ hn ho hm hb] at hr
              rcases ih _ _ _ _ hr with h | h
              · rcases List.mem_append.mp h with h' | h'
                · exact .inl h'
                · exact .inr ⟨e, m, by simp, hn, hm, List.mem_singleton.mp h'⟩
              · exact step (.inr h)

/-- The truncation dynamics: if the first `k ≥ 1` items all render and the
accumulated length first exceeds the cap exactly at the `k`-th row, the loop
stops there with rows for exactly the first `k` items and the notice index
`count + k + 1`. -/
theorem processLoop_truncAt (l : List StreamItem) :
    ∀ (k : Nat) (off : Int) (count : Nat) (rows : List String),
      (∀ x ∈ l.take k, goodItem x = true) → 1 ≤ k → k ≤ l.length →
      off ≤ (count : Int) + 1 →
      1000000 < sumLen rows + rowLenSum (l.take k) →
      sumLen rows + rowLenSum (l.take (k - 1)) ≤ 1000000 →
      processLoop l off count rows =
        .ok (rows ++ (l.take k).map rowOfItem, count + k, some (count + k + 1)) := by
  induction l with
  | nil => intro k off count rows _ hk1 hk2 _ _ _; simp at hk2; omega
  | cons x l' ih =>
    intro k off count rows hgood hk1 hk2 hoff hex hprev
    obtain ⟨k', rfl⟩ : ∃ k', k = k' + 1 := ⟨k - 1, by omega⟩
    have htake : (x :: l').take (k' + 1) = x :: l'.take k' := by simp
    obtain ⟨e, m, hx, hn, hm, hrow⟩ := goodItem_elim x (by
      apply hgood x; rw [htake]; simp)
    subst hx
    have ho : ¬ ((count + 1 : Nat) : Int) < off := by push_cast; omega
    have hsz1 : sumLen (rows ++ [rowOf e m]) = sumLen rows + (rowOf e m).length := by
      rw [sumLen_append, sumLen_single]
    rcases Nat.eq_zero_or_pos k' with hk0 | hkpos
    · subst hk0
      have ht1 : (StreamItem.entry e :: l').take (0 + 1) = [StreamItem.entry e] := by simp
      have hex1 : 1000000 < sumLen (rows ++ [rowOf e m]) := by
        rw [ht1, rowLenSum_cons, hrow,
          show rowLenSum ([] : List StreamItem) = 0 from rfl] at hex
        rw [hsz1]; omega
      rw [processLoop_render_break _ _ _ _ _ _ hn ho hm hex1]
      rw [ht1]
      simp only [List.map_cons, List.map_nil]
      rw [hrow]
    · have hprev1 : sumLen rows + ((rowOf e m).length + rowLenSum (l'.take (k' - 1))) ≤ 1000000 := by
        have : (StreamItem.entry e :: l').take (k' + 1 - 1) =
            StreamItem.entry e :: l'.take (k' - 1) := by
          obtain ⟨k'', rfl⟩ : ∃ k'', k' = k'' + 1 := ⟨k' - 1, by omega⟩
          simp
        rw [this, rowLenSum_cons, hrow] at hprev
        omega
      have hb : ¬ 1000000 < sumLen (rows ++ [rowOf e m]) := by rw [hsz1]; omega
      rw [processLoop_render_cont _ _ _ _ _ _ hn ho hm hb]
      have hex' : 1000000 < sumLen (rows ++ [rowOf e m]) + rowLenSum (l'.take k') := by
        rw [htake, rowLenSum_cons, hrow] at hex
        rw [hsz1]; omega
      rw [ih k' off (count + 1) (rows ++ [rowOf e m])
        (fun y hy => hgood y (by rw [htake]; simp [hy]))
        hkpos
        (by simp only [List.length_cons] at hk2; omega)
        (by push_cast; omega)
        hex'
        (by rw [hsz1]; omega)]
      rw [htake]
      simp only [List.map_cons, Except.ok.injEq, Prod.mk.injEq, Option.some.injEq]
      refine ⟨?_, by omega, by omega⟩
      rw [List.append_assoc, List.singleton_append, hrow]

/-! ## Handler-level helper -/

/-- String data distributes over append. -/
theorem strData_append (a b : String) : (a ++ b).data = a.data ++ b.data := by
  cases a; cases b; rfl

/-- Once the `entry` parameter parsed and the raw URI passed the `..` check,
the handler is the rendering pipeline followed by the zero-count decision. -/
theorem lambda_handler_eq (store : String → List (Except PyExn Page)) (req : Request)
    (off : Int) (hq : parseEntry req.querystring = .ok off)
    (hdd : strContains req.uri ".." = false) :
    lambda_handler store req =
      match process_dir store (pathStr (dir_key (unquote req.uri))) off with
      | .error e => .error e
      | .ok (content, entry_count) =>
        if entry_count = 0 then .ok (.passthrough req)
        else .ok (.response (okResponse content)) := by
  unfold lambda_handler
  rw [hq, hdd]
  simp

/-! ## Concrete fixtures used by witnesses and counterexamples -/

/-- A store with a single page holding one directory prefix. -/
def storeOneDir : String → List (Except PyExn Page) :=
  fun _ => [.ok { commonPrefixes := ["p/d/"], contents := [], isTruncated := false }]

/-- A store that always returns an empty (but successful) single page. -/
def storeEmpty : String → List (Except PyExn Page) :=
  fun _ => [.ok { commonPrefixes := [], contents := [], isTruncated := false }]

/-- A request whose URI contains `..` only after percent-decoding. -/
def reqEncodedDots : Request :=
  { uri := "/%2e%2e/x", querystring := "", headers := [], rest := [] }

/-- The spec's passthrough example request, URI `/foo/../bar`. -/
def reqTraversal : Request :=
  { uri := "/foo/../bar", querystring := "", headers := [], rest := [] }

/-- A plain directory request. -/
def reqSrv : Request :=
  { uri := "/srv/", querystring := "", headers := [], rest := [] }

/-- A request whose `entry` query parameter is not an integer literal. -/
def reqBadEntry : Request :=
  { uri := "/srv/", querystring := "entry=x", headers := [], rest := [] }

/-- The rendered document for `reqSrv` against `storeEmpty` (no entries). -/
def emptyContentSrv : String :=
  bodyTopA ++ pathName (pathStr (dir_key (unquote "/srv/"))) ++ bodyTopB ++
    truncNote none ++ strJoin [] ++ footerStr

/-! ## C1 -/

set_option maxRecDepth 4000 in
/-- C1 (counterexample): the handler checks the **raw** URI for `..` before
percent-decoding, so a request whose URI contains `..` only in decoded form is
not passed through: against a one-directory store it produces a synthesized
response instead of returning the request unmodified (and it does consult the
store). -/
theorem C1_counterexample :
    strContains (unquote reqEncodedDots.uri) ".." = true ∧
    strContains reqEncodedDots.uri ".." = false ∧
    lambda_handler storeOneDir reqEncodedDots ≠
      .ok (.passthrough reqEncodedDots) := by
  refine ⟨by decide, by decide, by decide⟩

/-- C1 (amended): for every request whose **raw, undecoded** URI contains the
substring `..` — and whose `entry` query parameter, when present, parses as an
integer — the handler returns the original request object unmodified, for
every store whatsoever (hence without issuing any object-store call). -/
theorem C1_rawDotsPassthrough (store : String → List (Except PyExn Page))
    (req : Request) (off : Int) (hq : parseEntry req.querystring = .ok off)
    (hdd : strContains req.uri ".." = true) :
    lambda_handler store req = .ok (.passthrough req) := by
  unfold lambda_handler
  rw [hq, hdd]
  simp

/-- C1 (witness): the spec's own example `/foo/../bar` is returned unmodified. -/
theorem C1_rawDotsPassthrough_witness :
    parseEntry reqTraversal.querystring = .ok 0 ∧
    strContains reqTraversal.uri ".." = true ∧
    lambda_handler storeOneDir reqTraversal = .ok (.passthrough reqTraversal) :=
  ⟨by decide, by decide,
    C1_rawDotsPassthrough storeOneDir reqTraversal 0 (by decide) (by decide)⟩

/-! ## C10 -/

/-- C10: when the query string carries an `entry` parameter whose first value
`int()` rejects, the handler raises (models Python's uncaught `ValueError`):
it returns neither a passthrough nor a 200 response and no default offset is
used. -/
theorem C10_badEntryRaises (store : String → List (Except PyExn Page))
    (req : Request) (v : String) (hq : qsFirst req.querystring "entry" = some v)
    (hv : pyInt v = none) :
    lambda_handler store req = .error (.valueError v) := by
  have hpe : parseEntry req.querystring = .error (.valueError v) := by
    unfold parseEntry
    rw [hq]
    simp [hv]
  unfold lambda_handler
  rw [hpe]

/-- C10 (witness): `entry=x` raises. -/
theorem C10_badEntryRaises_witness :
    qsFirst reqBadEntry.querystring "entry" = some "x" ∧
    pyInt "x" = none ∧
    lambda_handler storeOneDir reqBadEntry = .error (.valueError "x") :=
  ⟨by decide, by decide,
    C10_badEntryRaises storeOneDir reqBadEntry "x" (by decide) (by decide)⟩

/-! ## C4 -/

/-- C4: past the path check (raw `..` absent, `entry` parses), if rendering
succeeded then a zero entry count yields the original request unmodified, and
a nonzero count yields the literal 200 response with `Content-Type: text/html`
and `Cache-Control: max-age=0` holding the rendered document. -/
theorem C4_zeroPassthroughElse200 (store : String → List (Except PyExn Page))
    (req : Request) (off : Int) (content : String) (n : Nat)
    (hq : parseEntry req.querystring = .ok off)
    (hdd : strContains req.uri ".." = false)
    (hp : process_dir store (pathStr (dir_key (unquote req.uri))) off = .ok (content, n)) :
    (n = 0 → lambda_handler store req = .ok (.passthrough req)) ∧
    (n ≠ 0 → lambda_handler store req = .ok (.response
      { status := "200",
        statusDescription := "OK",
        headers :=
          [("cache-control", [{ key := "Cache-Control", value := "max-age=0" }]),
           ("content-type", [{ key := "Content-Type", value := "text/html" }])],
        body := content })) := by
  have heq := lambda_handler_eq store req off hq hdd
  rw [hp] at heq
  constructor
  · intro h0
    rw [heq]
    simp [h0]
  · intro hn0
    rw [heq]
    simp [hn0, okResponse]

/-- C4 (witness): an empty listing for `/srv/` is a passthrough. -/
theorem C4_zeroPassthroughElse200_witness :
    parseEntry reqSrv.querystring = .ok 0 ∧
    strContains reqSrv.uri ".." = false ∧
    process_dir storeEmpty (pathStr (dir_key (unquote reqSrv.uri))) 0 =
      .ok (emptyContentSrv, 0) ∧
    lambda_handler storeEmpty reqSrv = .ok (.passthrough reqSrv) :=
  ⟨by decide, by decide, rfl,
    (C4_zeroPassthroughElse200 storeEmpty reqSrv 0 emptyContentSrv 0
      (by decide) (by decide) rfl).1 rfl⟩

/-! ## C6 -/

/-- `prettySize` as §4.2 of the spec words it: pick the largest unit in
{PB, TB, GB, MB, KB, byte(s)} whose threshold the count reaches (descending
powers of 1024), render `floor(count / unit)` with the unit suffix, and
pluralize `byte`/`bytes` at the 1-byte tier by whether the amount is 1. -/
def specPrettySize (b : Nat) : String :=
  if 1024 ^ 5 ≤ b then toString (b / 1024 ^ 5) ++ " PB"
  else if 1024 ^ 4 ≤ b then toString (b / 1024 ^ 4) ++ " TB"
  else if 1024 ^ 3 ≤ b then toString (b / 1024 ^ 3) ++ " GB"
  else if 1024 ^ 2 ≤ b then toString (b / 1024 ^ 2) ++ " MB"
  else if 1024 ^ 1 ≤ b then toString (b / 1024 ^ 1) ++ " KB"
  else toString b ++ (if b = 1 then " byte" else " bytes")

/-- Lower bound of the fueled logarithm: `2 ^ log2F fuel n ≤ n`. -/
theorem log2F_le (fuel : Nat) : ∀ n, 1 ≤ n → n ≤ fuel → 2 ^ log2F fuel n ≤ n := by
  induction fuel with
  | zero => intro n h1 h2; omega
  | succ f ih =>
    intro n h1 h2
    show 2 ^ (if 2 ≤ n then log2F f (n / 2) + 1 else 0) ≤ n
    by_cases h : 2 ≤ n
    · rw [if_pos h, pow_succ]
      have hrec := ih (n / 2) (by omega) (by omega)
      have h2le : 2 ^ log2F f (n / 2) * 2 ≤ (n / 2) * 2 :=
        Nat.mul_le_mul_right 2 hrec
      omega
    · rw [if_neg h]
      simpa using h1

/-- Lower bound of `natLog2`. -/
theorem natLog2_le (n : Nat) (h : 1 ≤ n) : 2 ^ natLog2 n ≤ n :=
  log2F_le n n h le_rfl

/-- For byte counts below `2 ^ 53`, binary64 true division by a power of two
truncates to exactly the floor quotient: the scaled significand is already
exact, so no rounding occurs. -/
theorem pyFloatDivInt_pow2 (a j : Nat) (ha : a < 2 ^ 53) :
    pyFloatDivInt a (2 ^ j) = a / 2 ^ j := by
  have hbpos : 0 < 2 ^ j := pow_pos (by norm_num) j
  unfold pyFloatDivInt
  by_cases ha0 : a = 0
  · subst ha0
    simp
  · rw [if_neg (by push_neg; exact ⟨ha0, by omega⟩)]
    by_cases hab : a < 2 ^ j
    · rw [if_pos hab, Nat.div_eq_of_lt hab]
    · rw [if_neg hab]
      push_neg at hab
      have hq1 : 1 ≤ a / 2 ^ j := (Nat.one_le_div_iff hbpos).mpr hab
      have hlow : 2 ^ natLog2 (a / 2 ^ j) ≤ a / 2 ^ j := natLog2_le _ hq1
      have hEj : 2 ^ (natLog2 (a / 2 ^ j) + j) ≤ a := by
        rw [pow_add]
        calc 2 ^ natLog2 (a / 2 ^ j) * 2 ^ j ≤ a / 2 ^ j * 2 ^ j :=
              Nat.mul_le_mul_right _ hlow
          _ ≤ a := Nat.div_mul_le_self a (2 ^ j)
      have hEj52 : natLog2 (a / 2 ^ j) + j ≤ 52 := by
        by_contra hcon
        push_neg at hcon
        have hge : (2 : Nat) ^ 53 ≤ 2 ^ (natLog2 (a / 2 ^ j) + j) :=
          Nat.pow_le_pow_right (by norm_num) (by omega)
        omega
      rw [if_pos (show natLog2 (a / 2 ^ j) ≤ 52 by omega)]
      have hdvd : 2 ^ j ∣ a * 2 ^ (52 - natLog2 (a / 2 ^ j)) :=
        (pow_dvd_pow 2 (by omega)).mul_left a
      obtain ⟨k, hk⟩ := hdvd
      have hrne : roundNearestEven (a * 2 ^ (52 - natLog2 (a / 2 ^ j))) (2 ^ j) =
          a * 2 ^ (52 - natLog2 (a / 2 ^ j)) / 2 ^ j := by
        simp only [roundNearestEven]
        rw [hk, Nat.mul_mod_right]
        simp [hbpos]
      rw [hrne]
      have hsplit : (2 : Nat) ^ (52 - natLog2 (a / 2 ^ j)) =
          2 ^ (52 - natLog2 (a / 2 ^ j) - j) * 2 ^ j := by
        rw [← pow_add]
        congr 1
        omega
      rw [hsplit, ← Nat.mul_assoc, Nat.mul_div_cancel _ hbpos,
        Nat.mul_comm a (2 ^ (52 - natLog2 (a / 2 ^ j) - j)),
        Nat.mul_div_mul_left _ _ (pow_pos (by norm_num) _)]

/-- C6 (counterexample): the source computes `int(bytes / factor)` with
binary64 true division, which can round **up** before truncation: at
`b = 2 ^ 60 - 1` the program yields `1024 PB` while the claim's
`floor(b / unit)` formula (`specPrettySize`) yields `1023 PB`. -/
theorem C6_counterexample :
    pretty_size (2 ^ 60 - 1) = "1024 PB" ∧
    specPrettySize (2 ^ 60 - 1) = "1023 PB" := by
  constructor
  · decide
  · decide

/-- C6 (amended): for every byte count below `2 ^ 53` — where binary64
division by the power-of-two factors is exact — `pretty_size` equals the
spec's unit-table formula, and the four boundary examples hold; for larger
counts the float rounding can exceed the floor. -/
theorem C6_prettySizeTable :
    (∀ b : Nat, b < 2 ^ 53 → pretty_size b = specPrettySize b) ∧
    pretty_size 1023 = "1023 bytes" ∧ pretty_size 1024 = "1 KB" ∧
    pretty_size 1536 = "1 KB" ∧ pretty_size 1 = "1 byte" := by
  refine ⟨?_, by decide, by decide, by decide, by decide⟩
  intro b hb
  have h5 : pyFloatDivInt b (1024 ^ 5) = b / 1024 ^ 5 := by
    rw [show ((1024 : Nat) ^ 5) = 2 ^ 50 by norm_num]
    exact pyFloatDivInt_pow2 b 50 hb
  have h4 : pyFloatDivInt b (1024 ^ 4) = b / 1024 ^ 4 := by
    rw [show ((1024 : Nat) ^ 4) = 2 ^ 40 by norm_num]
    exact pyFloatDivInt_pow2 b 40 hb
  have h3 : pyFloatDivInt b (1024 ^ 3) = b / 1024 ^ 3 := by
    rw [show ((1024 : Nat) ^ 3) = 2 ^ 30 by norm_num]
    exact pyFloatDivInt_pow2 b 30 hb
  have h2 : pyFloatDivInt b (1024 ^ 2) = b / 1024 ^ 2 := by
    rw [show ((1024 : Nat) ^ 2) = 2 ^ 20 by norm_num]
    exact pyFloatDivInt_pow2 b 20 hb
  have h1 : pyFloatDivInt b (1024 ^ 1) = b / 1024 ^ 1 := by
    rw [show ((1024 : Nat) ^ 1) = 2 ^ 10 by norm_num]
    exact pyFloatDivInt_pow2 b 10 hb
  have h0 : pyFloatDivInt b 1 = b := by
    rw [show (1 : Nat) = 2 ^ 0 by norm_num, pyFloatDivInt_pow2 b 0 hb]
    simp
  simp only [pretty_size, specPrettySize, UNITS_MAPPING, unitsLoop]
  split_ifs <;> simp_all [Nat.div_one]

/-- C6 (witness): the amended statement at the boundary example 1023. -/
theorem C6_prettySizeTable_witness :
    (1023 : Nat) < 2 ^ 53 ∧ pretty_size 1023 = specPrettySize 1023 :=
  ⟨by decide, C6_prettySizeTable.1 1023 (by decide)⟩

/-! ## C7 -/

/-- `strEndsWith` via list suffixes. -/
theorem strEndsWith_iff (s sfx : String) :
    strEndsWith s sfx = true ↔ sfx.data <:+ s.data := by
  simp [strEndsWith, List.isSuffixOf_iff_suffix]

/-- A string that does not end in `/` has no trailing slash to strip. -/
theorem dropWhile_of_not_endsWith_slash (s : String)
    (h : strEndsWith s "/" = false) :
    s.data.reverse.dropWhile (fun c => c = '/') = s.data.reverse := by
  cases hr : s.data.reverse with
  | nil => rfl
  | cons c t =>
    have hc : ¬ c = '/' := by
      intro hc
      subst hc
      have hsfx : strEndsWith s "/" = true := by
        rw [strEndsWith_iff]
        refine ⟨t.reverse, ?_⟩
        have hs : s.data = (('/' : Char) :: t).reverse := by
          rw [← hr, List.reverse_reverse]
        rw [hs, List.reverse_cons]
      rw [hsfx] at h
      exact Bool.noConfusion h
    rw [List.dropWhile_cons]
    simp [hc]

/-- Appending a single separator to a slashless-tail string and right-stripping
gives the string back: the handler's first branch removes exactly the trailing
separator. -/
theorem pyRstripSlash_append (s : String) (h : strEndsWith s "/" = false) :
    pyRstripSlash (s ++ "/") = s := by
  unfold pyRstripSlash
  rw [strData_append, show (("/" : String).data) = ['/'] from rfl, List.reverse_append]
  simp only [List.reverse_cons, List.reverse_nil, List.nil_append, List.singleton_append]
  rw [List.dropWhile_cons]
  simp only [decide_True, if_true]
  rw [dropWhile_of_not_endsWith_slash s h, List.reverse_reverse]

/-- A URI ending in `/` enters the first branch of `dir_key`. -/
theorem strEndsWith_append_slash (s : String) :
    strEndsWith (s ++ "/") "/" = true := by
  rw [strEndsWith_iff, strData_append]
  exact List.suffix_append _ _

/-- A URI of the form `s ++ "/index.html"` does not end in `/`. -/
theorem indexhtml_not_endsWith_slash (s : String) :
    strEndsWith (s ++ "/index.html") "/" = false := by
  show (("/" : String).data.reverse.isPrefixOf (s ++ "/index.html").data.reverse) = false
  rw [strData_append, List.reverse_append,
    show (("/index.html" : String).data.reverse) =
      ['l', 'm', 't', 'h', '.', 'x', 'e', 'd', 'n', 'i', '/'] from rfl]
  simp [List.isPrefixOf]

/-- A URI of the form `s ++ "/index.html"` ends in the generated filename. -/
theorem indexhtml_endsWith (s : String) :
    strEndsWith (s ++ "/index.html") "index.html" = true := by
  rw [strEndsWith_iff, strData_append,
    show (("/index.html" : String).data) = '/' :: ("index.html" : String).data from rfl]
  exact ⟨s.data ++ ['/'], by simp⟩

/-- `rsplit('/', 1)[0]` strips exactly the `/index.html` tail. -/
theorem rsplitHead_indexhtml (s : String) :
    rsplitHead (s ++ "/index.html") = s := by
  unfold rsplitHead
  rw [strData_append, List.reverse_append,
    show (("/index.html" : String).data.reverse) =
      ['l', 'm', 't', 'h', '.', 'x', 'e', 'd', 'n', 'i', '/'] from rfl]
  show (⟨s.data.reverse.reverse⟩ : String) = s
  rw [List.reverse_reverse]

/-- C7: the directory-key derivation.  A URI with a (single) trailing
separator maps to the URI minus that separator; a URI ending in
`/index.html` maps to everything before that suffix; any other URI is used
verbatim; and — composed with the `Path` conversion and the enumerator's
leading-slash strip — the three spec examples each yield the prefix `a/b`. -/
theorem C7_dirKeyDerivation :
    (∀ s : String, strEndsWith s "/" = false → dir_key (s ++ "/") = s) ∧
    (∀ s : String, dir_key (s ++ "/index.html") = s) ∧
    (∀ s : String, strEndsWith s "/" = false → strEndsWith s "index.html" = false →
      dir_key s = s) ∧
    pyLstripSlash (pathStr (dir_key (unquote "/a/b/"))) = "a/b" ∧
    pyLstripSlash (pathStr (dir_key (unquote "/a/b/index.html"))) = "a/b" ∧
    pyLstripSlash (pathStr (dir_key (unquote "/a/b"))) = "a/b" := by
  refine ⟨?_, ?_, ?_, by decide, by decide, by decide⟩
  · intro s h
    unfold dir_key
    rw [strEndsWith_append_slash s]
    simp only [if_true]
    exact pyRstripSlash_append s h
  · intro s
    unfold dir_key
    rw [indexhtml_not_endsWith_slash s, indexhtml_endsWith s]
    simp only [Bool.false_eq_true, if_false, if_true]
    exact rsplitHead_indexhtml s
  · intro s h1 h2
    unfold dir_key
    rw [h1, h2]
    simp

/-- C7 (witness): the derivation rules applied at the spec's examples. -/
theorem C7_dirKeyDerivation_witness :
    strEndsWith "/a/b" "/" = false ∧ dir_key ("/a/b" ++ "/") = "/a/b" ∧
    dir_key ("/a/b" ++ "/index.html") = "/a/b" ∧
    strEndsWith "/a/b" "index.html" = false ∧ dir_key "/a/b" = "/a/b" :=
  ⟨by decide, C7_dirKeyDerivation.1 "/a/b" (by decide),
    C7_dirKeyDerivation.2.1 "/a/b",
    by decide, C7_dirKeyDerivation.2.2.1 "/a/b" (by decide) (by decide)⟩

/-! ## C5 -/

/-- C5: when the enumeration stream ends in a yielded store exception and the
renderer reaches it (the preceding items finish without truncating), the whole
rendering raises that error, the handler propagates it, and no document is
returned. -/
theorem C5_enumerationFailureAborts (store : String → List (Except PyExn Page))
    (req : Request) (off : Int) (items : List StreamItem) (ex : PyExn)
    (rows0 : List String) (cnt : Nat)
    (hq : parseEntry req.querystring = .ok off)
    (hdd : strContains req.uri ".." = false)
    (hs : s3_list_dir store (pathStr (dir_key (unquote req.uri))) = items ++ [.exn ex])
    (hp : processLoop items off 0 [] = .ok (rows0, cnt, none)) :
    process_dir store (pathStr (dir_key (unquote req.uri))) off = .error ex ∧
    lambda_handler store req = .error ex := by
  have hfull : processLoop (items ++ [.exn ex]) off 0 [] = .error ex := by
    rw [processLoop_append items [.exn ex] off 0 [] rows0 cnt hp, processLoop_exn]
  have hpd : process_dir store (pathStr (dir_key (unquote req.uri))) off = .error ex := by
    unfold process_dir
    rw [hs, hfull]
  refine ⟨hpd, ?_⟩
  rw [lambda_handler_eq store req off hq hdd, hpd]

/-- A store whose first listing call raises. -/
def storeFail : String → List (Except PyExn Page) :=
  fun _ => [.error (.storeError 503)]

/-- C5 (witness): a failing first page aborts the `/srv/` invocation. -/
theorem C5_enumerationFailureAborts_witness :
    parseEntry reqSrv.querystring = .ok 0 ∧
    s3_list_dir storeFail (pathStr (dir_key (unquote reqSrv.uri))) =
      [] ++ [.exn (.storeError 503)] ∧
    processLoop [] 0 0 [] = .ok ([], 0, none) ∧
    lambda_handler storeFail reqSrv = .error (.storeError 503) :=
  ⟨by decide, rfl, rfl,
    (C5_enumerationFailureAborts storeFail reqSrv 0 [] (.storeError 503) [] 0
      (by decide) (by decide) rfl rfl).2⟩

/-! ## C8 -/

/-- C8: every row of the rendered listing is the row of some stream entry
whose name does **not** equal `index.html` case-insensitively — so no
`index.html` entry ever contributes a row. -/
theorem C8_noIndexHtmlRow (l : List StreamItem) (off : Int) (r : String)
    (hr : r ∈ resultRows (processLoop l off 0 [])) :
    ∃ e m, StreamItem.entry e ∈ l ∧ pyLower e.name ≠ "index.html" ∧
      inspectMeta e = some m ∧ r = rowOf e m := by
  rcases processLoop_row_src l off 0 [] r hr with h | h
  · simp at h
  · exact h

/-- The directory entry used by small fixtures (name `a`). -/
def dirEntryA : S3Path := S3Path.ofPrefixEntry "p/a/"

/-- The directory entry used by small fixtures (name `b`). -/
def dirEntryB : S3Path := S3Path.ofPrefixEntry "p/b/"

/-- The metadata block a directory entry renders with. -/
def dirMeta : RowMeta := { sizeBytes := -1, pretty := "&mdash;", iso := "", human := "-" }

/-- A one-directory stream. -/
def streamOneA : List StreamItem := [.entry dirEntryA]

/-- A two-directory stream. -/
def streamAB : List StreamItem := [.entry dirEntryA, .entry dirEntryB]

/-- C8 (witness): the single row rendered for a one-directory stream is
accounted for by that directory entry. -/
theorem C8_noIndexHtmlRow_witness :
    rowOf dirEntryA dirMeta ∈ resultRows (processLoop streamOneA 0 0 []) ∧
    (∃ e m, StreamItem.entry e ∈ streamOneA ∧ pyLower e.name ≠ "index.html" ∧
      inspectMeta e = some m ∧ rowOf dirEntryA dirMeta = rowOf e m) :=
  ⟨by decide, C8_noIndexHtmlRow streamOneA 0 (rowOf dirEntryA dirMeta) (by decide)⟩

/-! ## C9 -/

/-- C9: an entry whose metadata inspection fails (a file with no usable
timestamp) is counted but contributes no row, and rendering of every other
entry proceeds unaffected — the invocation does not abort. -/
theorem C9_metadataFailureIsolated (pre post : List StreamItem) (bad : S3Path)
    (hpre : ∀ x ∈ pre, goodItem x = true) (hpost : ∀ x ∈ post, goodItem x = true)
    (hbn : ¬ pyLower bad.name = "index.html") (hbm : inspectMeta bad = none)
    (hsize : rowLenSum pre + rowLenSum post ≤ 1000000) :
    processLoop (pre ++ .entry bad :: post) 0 0 [] =
      .ok (pre.map rowOfItem ++ post.map rowOfItem, pre.length + 1 + post.length, none) := by
  have h0 : sumLen ([] : List String) = 0 := rfl
  have hmapPre : sumLen (pre.map rowOfItem) = rowLenSum pre := rfl
  have h1 : processLoop pre 0 0 [] = .ok ([] ++ pre.map rowOfItem, 0 + pre.length, none) :=
    processLoop_allGood pre 0 0 [] hpre (by norm_num) (by rw [h0]; omega)
  rw [processLoop_append pre (.entry bad :: post) 0 0 [] _ _ h1]
  have ho : ¬ ((0 + pre.length + 1 : Nat) : Int) < 0 := by push_cast; omega
  rw [processLoop_skipmeta bad post 0 (0 + pre.length) ([] ++ pre.map rowOfItem) hbn ho hbm]
  rw [processLoop_allGood post 0 (0 + pre.length + 1) ([] ++ pre.map rowOfItem) hpost
    (by push_cast; omega)
    (by rw [sumLen_append, h0, hmapPre]; omega)]
  simp only [List.nil_append, Except.ok.injEq, Prod.mk.injEq]
  exact ⟨trivial, by omega, trivial⟩

/-- A file entry with no `LastModified`: its metadata inspection raises. -/
def fileNoLM : S3Path :=
  S3Path.ofContent { key := "p/noLM.txt", size := 5, lastModified := none }

/-- C9 (witness): with the bad file between two directories, both directory
rows render and the count still includes the dropped entry. -/
theorem C9_metadataFailureIsolated_witness :
    (∀ x ∈ streamOneA, goodItem x = true) ∧
    inspectMeta fileNoLM = none ∧
    rowLenSum streamOneA + rowLenSum [StreamItem.entry dirEntryB] ≤ 1000000 ∧
    processLoop (streamOneA ++ .entry fileNoLM :: [StreamItem.entry dirEntryB]) 0 0 [] =
      .ok (streamOneA.map rowOfItem ++ [StreamItem.entry dirEntryB].map rowOfItem,
        streamOneA.length + 1 + [StreamItem.entry dirEntryB].length, none) :=
  ⟨by decide, by decide, by decide,
    C9_metadataFailureIsolated streamOneA [StreamItem.entry dirEntryB] fileNoLM
      (by decide) (by decide) (by decide) (by decide) (by decide)⟩

/-! ## C2 -/

/-- C2 (counterexample): the loop guard is `entry_count < entry_offset`, so
with `skipCount = 1` the very first entry — running count 1, which is ≤ 1 —
is **not** omitted: its markup is rendered.  The claim predicted zero rendered
rows here. -/
theorem C2_counterexample :
    (1 : Nat) ≤ 1 ∧ (resultRows (processLoop streamOneA 1 0 [])).length = 1 := by
  decide

/-- C2 (amended): for every skipCount `N ≥ 1`, entries are counted but their
markup is omitted while the running count is **less than** `N` (at most
`N - 1`), and the first entry whose markup is emitted is the one whose
running count equals `N` — not `N + 1`. -/
theorem C2_skipSemantics (l : List StreamItem) (N : Nat)
    (hgood : ∀ x ∈ l, goodItem x = true) (hN1 : 1 ≤ N) (hN2 : N ≤ l.length) :
    processLoop (l.take (N - 1)) (N : Int) 0 [] = .ok ([], N - 1, none) ∧
    (resultRows (processLoop l (N : Int) 0 [])).head? =
      some (rowOfItem (l.get ⟨N - 1, by omega⟩)) := by
  have hg' : ∀ x ∈ l.take (N - 1), goodItem x = true :=
    fun x hx => hgood x (List.mem_of_mem_take hx)
  have hlen : (l.take (N - 1)).length = N - 1 := by
    rw [List.length_take]; omega
  have hskip : processLoop (l.take (N - 1)) (N : Int) 0 [] =
      .ok ([], 0 + (l.take (N - 1)).length, none) :=
    processLoop_skipPhase (l.take (N - 1)) (N : Int) 0 []
      hg' (by rw [hlen]; push_cast; omega)
  constructor
  · rw [hskip, hlen]
    norm_num
  · have happ := processLoop_append (l.take (N - 1)) (l.drop (N - 1)) (N : Int) 0 []
      [] (0 + (l.take (N - 1)).length) hskip
    rw [List.take_append_drop] at happ
    have hNlt : N - 1 < l.length := by omega
    have hdrop : l.drop (N - 1) = l.get ⟨N - 1, hNlt⟩ :: l.drop (N - 1 + 1) := by
      rw [List.drop_eq_getElem_cons hNlt, List.get_eq_getElem]
    obtain ⟨e, m, hx, hn, hm, hrow⟩ :=
      goodItem_elim (l.get ⟨N - 1, hNlt⟩) (hgood _ (List.get_mem l (N - 1) hNlt))
    rw [happ, hdrop, hx]
    have hcnt : 0 + (l.take (N - 1)).length + 1 = N := by rw [hlen]; omega
    have ho : ¬ ((0 + (l.take (N - 1)).length + 1 : Nat) : Int) < (N : Int) := by
      rw [hcnt]
      omega
    by_cases hb : 1000000 < sumLen ([] ++ [rowOf e m])
    · rw [processLoop_render_break _ _ _ _ _ _ hn ho hm hb]
      simp only [resultRows, List.nil_append, List.head?_cons]
      rw [hx] at hrow
      rw [hrow]
    · rw [processLoop_render_cont _ _ _ _ _ _ hn ho hm hb]
      have hgdrop : ∀ x ∈ l.drop (N - 1 + 1), goodItem x = true :=
        fun x hx => hgood x (List.mem_of_mem_drop hx)
      obtain ⟨ext, cnt2, tr2, hres⟩ :=
        processLoop_extend (l.drop (N - 1 + 1)) (N : Int)
          (0 + (l.take (N - 1)).length + 1) ([] ++ [rowOf e m]) hgdrop
      rw [hres]
      simp only [resultRows, List.nil_append, List.cons_append, List.head?_cons]
      rw [hx] at hrow
      rw [hrow]

/-- C2 (witness): in a two-directory stream with skipCount 2, the first entry
is omitted and the first emitted row is the second entry's. -/
theorem C2_skipSemantics_witness :
    (∀ x ∈ streamAB, goodItem x = true) ∧ (1 : Nat) ≤ 2 ∧ 2 ≤ streamAB.length ∧
    processLoop (streamAB.take 1) (2 : Int) 0 [] = .ok ([], 1, none) ∧
    (resultRows (processLoop streamAB (2 : Int) 0 [])).head? =
      some (rowOfItem (streamAB.get ⟨1, by decide⟩)) := by
  have hg : ∀ x ∈ streamAB, goodItem x = true := by decide
  refine ⟨hg, by decide, by decide, ?_, ?_⟩
  · exact (C2_skipSemantics streamAB 2 hg (by decide) (by decide)).1
  · exact (C2_skipSemantics streamAB 2 hg (by decide) (by decide)).2

/-! ## C3 -/

/-- C3: with skipCount 0, when the cumulative rendered length of the first
`k ≥ 1` (all renderable) entries first exceeds 1,000,000 at entry `k`, the
loop returns exactly the first `k` rows, a count of `k`, and a truncation
notice index of `k + 1`; moreover the result is the same whatever follows the
first `k` items — no entry beyond `k` is rendered or pulled. -/
theorem C3_truncation (l : List StreamItem) (k : Nat)
    (hgood : ∀ x ∈ l.take k, goodItem x = true) (hk1 : 1 ≤ k) (hk2 : k ≤ l.length)
    (hex : 1000000 < rowLenSum (l.take k))
    (hprev : rowLenSum (l.take (k - 1)) ≤ 1000000) :
    processLoop l 0 0 [] = .ok ((l.take k).map rowOfItem, k, some (k + 1)) ∧
    ∀ ext, processLoop (l.take k ++ ext) 0 0 [] = processLoop l 0 0 [] := by
  have h0 : sumLen ([] : List String) = 0 := rfl
  have main := processLoop_truncAt l k 0 0 [] hgood hk1 hk2 (by norm_num)
    (by rw [h0]; omega) (by rw [h0]; omega)
  have hmain : processLoop l 0 0 [] = .ok ((l.take k).map rowOfItem, k, some (k + 1)) := by
    rw [main]
    simp only [List.nil_append, Nat.zero_add]
  refine ⟨hmain, ?_⟩
  intro ext
  have hklen : (l.take k).length = k := by rw [List.length_take]; omega
  have htk : (l.take k ++ ext).take k = l.take k := by
    rw [List.take_append_eq_append_take, List.take_take, hklen]
    simp
  have htk1 : (l.take k ++ ext).take (k - 1) = l.take (k - 1) := by
    rw [List.take_append_eq_append_take, List.take_take, hklen]
    have h1 : (k - 1) ⊓ k = k - 1 := by omega
    have h2 : k - 1 - k = 0 := by omega
    rw [h1, h2]
    simp
  have main2 := processLoop_truncAt (l.take k ++ ext) k 0 0 []
    (by rw [htk]; exact hgood) hk1
    (by rw [List.length_append, hklen]; omega) (by norm_num)
    (by rw [h0, htk]; omega) (by rw [h0, htk1]; omega)
  rw [hmain, main2, htk]
  simp only [List.nil_append, Nat.zero_add]

/-- The length of a rendered row is the sum of its fragments' lengths. -/
theorem rowOf_length (e : S3Path) (m : RowMeta) :
    (rowOf e m).length =
      rowP0.length + (quote (entryPathOf e)).length + rowP1.length +
      (entryTypeOf e).length + rowP2.length + e.name.length + rowP3.length +
      (toString m.sizeBytes).length + rowP4.length + m.pretty.length + rowP5.length +
      m.iso.length + rowP6.length + m.human.length + rowP7.length := by
  unfold rowOf
  repeat rw [String.length_append]

/-- A directory entry whose name is long enough that its single row already
exceeds the 1,000,000-character cap. -/
def bigDir : S3Path :=
  { isDir := true, absolute := ⟨'n' :: List.replicate 1100000 'a'⟩,
    name := ⟨'n' :: List.replicate 1100000 'a'⟩, size := 0, lastModified := none }

/-- A stream whose first rendered row trips the truncation cap at `k = 1`. -/
def bigStream : List StreamItem := [.entry bigDir]

/-- C3 (witness): the big-entry stream truncates at `k = 1` with notice index
2, and appending further items does not change the result. -/
theorem C3_truncation_witness :
    (∀ x ∈ bigStream.take 1, goodItem x = true) ∧
    1000000 < rowLenSum (bigStream.take 1) ∧
    rowLenSum (bigStream.take (1 - 1)) ≤ 1000000 ∧
    processLoop bigStream 0 0 [] =
      .ok ((bigStream.take 1).map rowOfItem, 1, some (1 + 1)) ∧
    processLoop (bigStream.take 1 ++ [.entry dirEntryB]) 0 0 [] =
      processLoop bigStream 0 0 [] := by
  have hnamelen : bigDir.name.length = 1100001 := by
    show ('n' :: List.replicate 1100000 'a').length = 1100001
    rw [List.length_cons, List.length_replicate]
  have hname : pyLower bigDir.name ≠ "index.html" := by
    intro h
    have hl := congrArg String.length h
    have h1 : (pyLower bigDir.name).length = 1100001 := by
      show (bigDir.name.data.map Char.toLower).length = 1100001
      rw [List.length_map]
      exact hnamelen
    rw [h1] at hl
    exact absurd hl (by decide)
  have hg : ∀ x ∈ bigStream.take 1, goodItem x = true := by
    intro x hx
    rw [show bigStream.take 1 = [StreamItem.entry bigDir] from rfl] at hx
    rw [List.mem_singleton] at hx
    subst hx
    show (decide (pyLower bigDir.name ≠ "index.html") && (inspectMeta bigDir).isSome) = true
    rw [decide_eq_true hname]
    rfl
  have hrowitem : rowOfItem (StreamItem.entry bigDir) = rowOf bigDir dirMeta := rfl
  have hex : 1000000 < rowLenSum (bigStream.take 1) := by
    rw [show bigStream.take 1 = [StreamItem.entry bigDir] from rfl]
    rw [rowLenSum_cons, hrowitem, show rowLenSum ([] : List StreamItem) = 0 from rfl]
    rw [rowOf_length, hnamelen]
    generalize (quote (entryPathOf bigDir)).length = q
    omega
  have hprev : rowLenSum (bigStream.take (1 - 1)) ≤ 1000000 := by decide
  have hmain := C3_truncation bigStream 1 hg (by decide) (by decide) hex hprev
  exact ⟨hg, hex, hprev, hmain.1, hmain.2 [.entry dirEntryB]⟩

end ArtSrv
